import Mathlib

/-!
Verification of the opl-driver repository: a driver for an OPL2-class FM synthesis
chip behind a write-only, bit-banged shift-register transport.

The embedding follows the source:
* src/ll.rs - the ShiftInterface transport (shadow register image, reset,
  write_register, read_register) and the register address map declared by the
  implement_registers block;
* src/hl.rs - the typed device layer (Note, OPERATOR_MAP, setup_melody_instrument,
  start_channel, stop_channel, mode conversions, rhythm voice toggles);
* src/instrument.rs - OperatorSettings and MelodyInstrument byte layouts.

Hardware is modelled by an explicit environment (Env) deciding whether each
fallible pin or byte-stream operation succeeds, a counter of fallible operations
performed so far, and a trace of performed hardware operations (most recent
operation first, since entries are prepended).  Rust u8 values are Nat with
reductions modulo 256 where the u8 type forces them.  Rust panics
(out-of-bounds indexing, unreachable code) are the panicked error value.

The register field accessors of the device-driver framework are not part of this
repository; those definitions are modelled from the spec and marked as such.
-/

namespace Opl

set_option maxRecDepth 100000

/-- Per-line fault kinds of the transport (InterfaceError in src/ll.rs). -/
inductive InterfaceError
| addressPinError
| latchPinError
| resetPinError
| communicationError
deriving DecidableEq, Repr

/-- Driver errors (Opl2Error in src/hl.rs).  lowLevelError wraps a propagated
transport line fault.  invalidIndex is the out-of-range arrayed-register index
condition of the register framework (modelled from the spec, section 7 of the
spec names it invalid-index).  panicked models a Rust panic: an out-of-bounds
array or slice index, or reaching code marked unreachable. -/
inductive Opl2Error
| lowLevelError (e : InterfaceError)
| invalidChannel
| invalidIndex
| panicked
deriving DecidableEq, Repr

/-- The three digital output lines of the transport. -/
inductive PinKind
| address
| latch
| reset
deriving DecidableEq, Repr

/-- One physical hardware action performed by the transport. -/
inductive HwOp
| pin (k : PinKind) (high : Bool)
| spiWrite (bytes : List Nat)
| delayUs (n : Nat)
| delayMs (n : Nat)
deriving DecidableEq, Repr

/-- State of the ShiftInterface of src/ll.rs.  registers is the shadow register
image, a byte array of length 255 in the source (u8 max value entries).
fallibleOps counts the fallible hardware operations attempted so far and
trace records the hardware operations performed, most recent first. -/
structure ShiftInterface where
  registers : List Nat
  fallibleOps : Nat
  trace : List HwOp
deriving DecidableEq, Repr

/-- The hardware environment: whether the k-th fallible hardware operation
(pin set or byte-stream write) succeeds. -/
def Env : Type := Nat → Bool

/-- The fault-free environment: every hardware operation succeeds. -/
def okEnv : Env := fun _ => true

/-- Result of one driver step: the state behind the Rust mutable reference
together with an optional error. -/
abbrev StepResult := ShiftInterface × Option Opl2Error

/-- A fallible hardware operation: consult the environment; on success record
the operation in the trace, on failure report the per-line error.  Either way
the attempt is counted. -/
def fallible (env : Env) (op : HwOp) (e : InterfaceError) (s : ShiftInterface) : StepResult :=
  if env s.fallibleOps then
    ({ s with fallibleOps := s.fallibleOps + 1, trace := op :: s.trace }, none)
  else
    ({ s with fallibleOps := s.fallibleOps + 1 }, some (Opl2Error.lowLevelError e))

/-- An infallible microsecond delay. -/
def delayUs (n : Nat) (s : ShiftInterface) : StepResult :=
  ({ s with trace := HwOp.delayUs n :: s.trace }, none)

/-- An infallible millisecond delay. -/
def delayMs (n : Nat) (s : ShiftInterface) : StepResult :=
  ({ s with trace := HwOp.delayMs n :: s.trace }, none)

/-- Sequencing of fallible steps: the question-mark operator of the source.
On error the error is returned and the rest of the computation is skipped;
the state reached so far is kept (Rust mutates through a reference). -/
def andThen (r : StepResult) (k : ShiftInterface → StepResult) : StepResult :=
  match r with
  | (s, none) => k s
  | (s, some e) => (s, some e)

/-- The error of each pin kind. -/
def pinError : PinKind → InterfaceError
| PinKind.address => InterfaceError.addressPinError
| PinKind.latch => InterfaceError.latchPinError
| PinKind.reset => InterfaceError.resetPinError

/-- A primitive hardware step of the transport. -/
inductive Prim
| pin (k : PinKind) (high : Bool)
| spi (bytes : List Nat)
| dUs (n : Nat)
| dMs (n : Nat)
deriving DecidableEq, Repr

/-- Run one primitive hardware step. -/
def runPrim (env : Env) (p : Prim) (s : ShiftInterface) : StepResult :=
  match p with
  | Prim.pin k high => fallible env (HwOp.pin k high) (pinError k) s
  | Prim.spi bytes => fallible env (HwOp.spiWrite bytes) InterfaceError.communicationError s
  | Prim.dUs n => delayUs n s
  | Prim.dMs n => delayMs n s

/-- Run a sequence of primitive hardware steps, stopping at the first fault. -/
def runPrims (env : Env) (ps : List Prim) (s : ShiftInterface) : StepResult :=
  match ps with
  | [] => (s, none)
  | p :: rest => andThen (runPrim env p s) (runPrims env rest)

/-- The hardware handshake for one byte of write_register in src/ll.rs:
address phase (address line low, send the address byte, latch pulse with a
1 microsecond low and a 4 microsecond settle) then data phase (address line
high, send the data byte, latch pulse with a 1 microsecond low and a
23 microsecond settle). -/
def hwBytePrims (addrByte dataByte : Nat) : List Prim :=
  [Prim.pin PinKind.address false,
   Prim.spi [addrByte],
   Prim.pin PinKind.latch false,
   Prim.dUs 1,
   Prim.pin PinKind.latch true,
   Prim.dUs 4,
   Prim.pin PinKind.address true,
   Prim.spi [dataByte],
   Prim.pin PinKind.latch false,
   Prim.dUs 1,
   Prim.pin PinKind.latch true,
   Prim.dUs 23]

/-- The per-byte body of the write_register loop. -/
def writeHwByte (env : Env) (addrByte dataByte : Nat) (s : ShiftInterface) : StepResult :=
  runPrims env (hwBytePrims addrByte dataByte) s

/-- The write_register loop over the value bytes: byte i goes to address
address + i (u8 arithmetic).  The loop is abandoned at the first fault. -/
def writeHwLoop (env : Env) (address : Nat) (value : List Nat) (i : Nat)
    (s : ShiftInterface) : StepResult :=
  match value with
  | [] => (s, none)
  | b :: rest =>
    andThen (writeHwByte env ((address + i) % 256) b s) fun s =>
      writeHwLoop env address rest (i + 1) s

/-- Rust slice assignment regs[addr..addr+len].copy_from_slice(value);
none models the panic on an out-of-bounds range. -/
def copyFromSlice (regs : List Nat) (addr : Nat) (value : List Nat) : Option (List Nat) :=
  if addr + value.length ≤ regs.length then
    some (regs.take addr ++ value ++ regs.drop (addr + value.length))
  else
    none

/-- write_register of src/ll.rs: save the whole value in the shadow image
first, then perform the per-byte hardware handshakes in order. -/
def write_register (env : Env) (address : Nat) (value : List Nat)
    (s : ShiftInterface) : StepResult :=
  match copyFromSlice s.registers address value with
  | none => (s, some Opl2Error.panicked)
  | some regs => writeHwLoop env address value 0 { s with registers := regs }

/-- read_register of src/ll.rs: a pure copy out of the shadow image; no
hardware operation is performed.  Returns the state, the bytes read and an
optional error (panic on an out-of-bounds range). -/
def read_register (address len : Nat) (s : ShiftInterface) :
    ShiftInterface × List Nat × Option Opl2Error :=
  if address + len ≤ s.registers.length then
    (s, (s.registers.drop address).take len, none)
  else
    (s, [], some Opl2Error.panicked)

/-- The pin sequence of reset in src/ll.rs: latch high, reset high, address
low, then reset low, a 1 millisecond wait, reset high. -/
def resetPrims : List Prim :=
  [Prim.pin PinKind.latch true,
   Prim.pin PinKind.reset true,
   Prim.pin PinKind.address false,
   Prim.pin PinKind.reset false,
   Prim.dMs 1,
   Prim.pin PinKind.reset true]

/-- reset of src/ll.rs: drive the pin cycle, zero the whole shadow image, then
write 255 zero bytes starting at address 0. -/
def reset (env : Env) (s : ShiftInterface) : StepResult :=
  andThen (runPrims env resetPrims s) fun s =>
    write_register env 0 (List.replicate 255 0) { s with registers := List.replicate 255 0 }

/-- ShiftInterface construction: the shadow image starts as 255 zero bytes
(the source array has u8 max value entries), no hardware touched yet. -/
def ShiftInterface.new : ShiftInterface :=
  { registers := List.replicate 255 0, fallibleOps := 0, trace := [] }

/-! ## Register file (field machinery modelled from the spec, addresses from src/ll.rs) -/

/-- Modelled from the spec: the register framework generating the typed field
accessors is external to the repository.  Writing a field clears exactly its
inclusive bit range lo..hi and ORs in the value masked to the width of the
range; arithmetically, bits below lo and above hi are kept and bits lo..hi are
replaced by the masked value. -/
def setField (lo hi v b : Nat) : Nat :=
  b % 2 ^ lo + v % 2 ^ (hi + 1 - lo) * 2 ^ lo + 2 ^ (hi + 1) * (b / 2 ^ (hi + 1))

/-- Modelled from the spec: reading a field extracts its inclusive bit range. -/
def getField (lo hi b : Nat) : Nat :=
  b / 2 ^ lo % 2 ^ (hi + 1 - lo)

/-- Addresses of the arrayed operator_settings0 register (0x20..0x35). -/
def operator_settings0_addresses : List Nat :=
  [0x20, 0x21, 0x22, 0x23, 0x24, 0x25, 0x26, 0x27, 0x28, 0x29, 0x2A,
   0x2B, 0x2C, 0x2D, 0x2E, 0x2F, 0x30, 0x31, 0x32, 0x33, 0x34, 0x35]

/-- Addresses of the arrayed operator_settings1 register (0x40..0x55). -/
def operator_settings1_addresses : List Nat :=
  [0x40, 0x41, 0x42, 0x43, 0x44, 0x45, 0x46, 0x47, 0x48, 0x49, 0x4A,
   0x4B, 0x4C, 0x4D, 0x4E, 0x4F, 0x50, 0x51, 0x52, 0x53, 0x54, 0x55]

/-- Addresses of the arrayed operator_settings2 register (0x60..0x75). -/
def operator_settings2_addresses : List Nat :=
  [0x60, 0x61, 0x62, 0x63, 0x64, 0x65, 0x66, 0x67, 0x68, 0x69, 0x6A,
   0x6B, 0x6C, 0x6D, 0x6E, 0x6F, 0x70, 0x71, 0x72, 0x73, 0x74, 0x75]

/-- Addresses of the arrayed operator_settings3 register (0x80..0x95). -/
def operator_settings3_addresses : List Nat :=
  [0x80, 0x81, 0x82, 0x83, 0x84, 0x85, 0x86, 0x87, 0x88, 0x89, 0x8A,
   0x8B, 0x8C, 0x8D, 0x8E, 0x8F, 0x90, 0x91, 0x92, 0x93, 0x94, 0x95]

/-- Addresses of the arrayed operator_settings4 register (0xE0..0xF5). -/
def operator_settings4_addresses : List Nat :=
  [0xE0, 0xE1, 0xE2, 0xE3, 0xE4, 0xE5, 0xE6, 0xE7, 0xE8, 0xE9, 0xEA,
   0xEB, 0xEC, 0xED, 0xEE, 0xEF, 0xF0, 0xF1, 0xF2, 0xF3, 0xF4, 0xF5]

/-- Addresses of the arrayed channel_settings0 register (frequency low bytes). -/
def channel_settings0_addresses : List Nat :=
  [0xA0, 0xA1, 0xA2, 0xA3, 0xA4, 0xA5, 0xA6, 0xA7, 0xA8]

/-- Addresses of the arrayed channel_settings1 register (key on, block number,
frequency number high bits). -/
def channel_settings1_addresses : List Nat :=
  [0xB0, 0xB1, 0xB2, 0xB3, 0xB4, 0xB5, 0xB6, 0xB7, 0xB8]

/-- Addresses of the arrayed channel_settings2 register (feedback and
synthesis type). -/
def channel_settings2_addresses : List Nat :=
  [0xC0, 0xC1, 0xC2, 0xC3, 0xC4, 0xC5, 0xC6, 0xC7, 0xC8]

/-- Address of the rhythm_settings register. -/
def rhythm_settings_address : Nat := 0xBD

/-- Modelled from the spec: a plain register write of the framework builds the
byte from an all-zero writer (fields not written by the closure are zero),
resolves index i to the i-th address of the arrayed register and fails with
the invalid-index condition when i is out of range.  The built byte is a u8. -/
def write_index (env : Env) (addrs : List Nat) (i : Nat) (f : Nat → Nat)
    (s : ShiftInterface) : StepResult :=
  match addrs[i]? with
  | some a => write_register env a [f 0 % 256] s
  | none => (s, some Opl2Error.invalidIndex)

/-- Modelled from the spec: a register modify of the framework reads the
current byte from the shadow image, applies the field change to it and writes
the result back; out-of-range indices fail with the invalid-index condition. -/
def modify_index (env : Env) (addrs : List Nat) (i : Nat) (f : Nat → Nat)
    (s : ShiftInterface) : StepResult :=
  match addrs[i]? with
  | some a =>
    match read_register a 1 s with
    | (s1, bytes, none) => write_register env a [f (bytes.headD 0) % 256] s1
    | (s1, _, some e) => (s1, some e)
  | none => (s, some Opl2Error.invalidIndex)

/-- Modelled from the spec: modify of a plain single-address register. -/
def modify_reg (env : Env) (a : Nat) (f : Nat → Nat) (s : ShiftInterface) : StepResult :=
  match read_register a 1 s with
  | (s1, bytes, none) => write_register env a [f (bytes.headD 0) % 256] s1
  | (s1, _, some e) => (s1, some e)

/-- Field writer frequency_number_low of channel_settings0 (bits 0..7). -/
def w_frequency_number_low (v b : Nat) : Nat := setField 0 7 v b

/-- Field writer frequency_number_high of channel_settings1 (bits 0..1). -/
def w_frequency_number_high (v b : Nat) : Nat := setField 0 1 v b

/-- Field writer block_number of channel_settings1 (bits 2..4). -/
def w_block_number (v b : Nat) : Nat := setField 2 4 v b

/-- Field writer key_on of channel_settings1 (bit 5). -/
def w_key_on (v b : Nat) : Nat := setField 5 5 v b

/-- Field writer instrument_mode of rhythm_settings (bit 5);
0 is Melodic, 1 is Percussion. -/
def w_instrument_mode (v b : Nat) : Nat := setField 5 5 v b

/-- Field writer bass_drum_on of rhythm_settings (bit 4). -/
def w_bass_drum_on (v b : Nat) : Nat := setField 4 4 v b

/-- Field writer snare_drum_on of rhythm_settings (bit 3). -/
def w_snare_drum_on (v b : Nat) : Nat := setField 3 3 v b

/-- Field writer tom_tom_on of rhythm_settings (bit 2). -/
def w_tom_tom_on (v b : Nat) : Nat := setField 2 2 v b

/-- Field writer cymbal_on of rhythm_settings (bit 1). -/
def w_cymbal_on (v b : Nat) : Nat := setField 1 1 v b

/-- Field writer hi_hat_on of rhythm_settings (bit 0). -/
def w_hi_hat_on (v b : Nat) : Nat := setField 0 0 v b

/-! ## Instrument model (src/instrument.rs) -/

/-- OperatorSettings of src/instrument.rs: the raw writer bytes for the five
operator registers. -/
structure OperatorSettings where
  operator_settings0 : Nat
  operator_settings1 : Nat
  operator_settings2 : Nat
  operator_settings3 : Nat
  operator_settings4 : Nat
deriving DecidableEq, Repr

/-- OperatorSettings.from_bytes: the five bytes in register address order. -/
def OperatorSettings.from_bytes (bytes : List Nat) : OperatorSettings :=
  { operator_settings0 := bytes.getD 0 0
    operator_settings1 := bytes.getD 1 0
    operator_settings2 := bytes.getD 2 0
    operator_settings3 := bytes.getD 3 0
    operator_settings4 := bytes.getD 4 0 }

/-- MelodyInstrument of src/instrument.rs: two operators and the channel
synthesis byte. -/
structure MelodyInstrument where
  operator_0 : OperatorSettings
  channel_settings2 : Nat
  operator_1 : OperatorSettings
deriving DecidableEq, Repr

/-- MelodyInstrument.from_bytes: operator 0 bytes, synthesis byte, operator 1
bytes. -/
def MelodyInstrument.from_bytes (bytes : List Nat) : MelodyInstrument :=
  { operator_0 := OperatorSettings.from_bytes (bytes.take 5)
    channel_settings2 := bytes.getD 5 0
    operator_1 := OperatorSettings.from_bytes (bytes.drop 6) }

/-- The built-in electric piano preset. -/
def ELPIANO1 : MelodyInstrument :=
  MelodyInstrument.from_bytes
    [0x01, 0x4F, 0xF1, 0x50, 0x00, 0x06, 0x01, 0x04, 0xD2, 0x7C, 0x00]

/-! ## Device layer (src/hl.rs) -/

/-- The two initialized type states of the device. -/
inductive Mode
| melody
| rhythm
deriving DecidableEq, Repr

/-- The CHANNEL_COUNT constant of the Initialized trait: 9 for Melody,
6 for Rhythm. -/
def CHANNEL_COUNT : Mode → Nat
| Mode.melody => 9
| Mode.rhythm => 6

/-- The Note enum of src/hl.rs; every variant carries its octave. -/
inductive Note
| C (octave : Nat)
| Cs (octave : Nat)
| D (octave : Nat)
| Eb (octave : Nat)
| E (octave : Nat)
| F (octave : Nat)
| Fs (octave : Nat)
| G (octave : Nat)
| Ab (octave : Nat)
| A (octave : Nat)
| Bb (octave : Nat)
| B (octave : Nat)
deriving DecidableEq, Repr

/-- Note.get_frequency of src/hl.rs: the 10-bit frequency number, one fixed
value per note letter. -/
def Note.get_frequency : Note → Nat
| Note.C _ => 0x157
| Note.Cs _ => 0x16B
| Note.D _ => 0x181
| Note.Eb _ => 0x198
| Note.E _ => 0x1B0
| Note.F _ => 0x1CA
| Note.Fs _ => 0x1E5
| Note.G _ => 0x202
| Note.Ab _ => 0x220
| Note.A _ => 0x241
| Note.Bb _ => 0x263
| Note.B _ => 0x287

/-- Note.get_octave of src/hl.rs: the octave argument of the variant. -/
def Note.get_octave : Note → Nat
| Note.C o => o
| Note.Cs o => o
| Note.D o => o
| Note.Eb o => o
| Note.E o => o
| Note.F o => o
| Note.Fs o => o
| Note.G o => o
| Note.Ab o => o
| Note.A o => o
| Note.Bb o => o
| Note.B o => o

/-- OPERATOR_MAP of src/hl.rs: the two operator indices of each of the 9
channels. -/
def OPERATOR_MAP : List (Nat × Nat) :=
  [(0x00, 0x03), (0x01, 0x04), (0x02, 0x05),
   (0x08, 0x0B), (0x09, 0x0C), (0x0A, 0x0D),
   (0x10, 0x13), (0x11, 0x14), (0x12, 0x15)]

/-- The five plain writes of set_operator_settings once the operator index is
resolved: one write per operator register block, each storing the raw
settings byte (the write closure ignores the zero writer). -/
def write_operator_regs (env : Env) (op : Nat) (settings : OperatorSettings)
    (s : ShiftInterface) : StepResult :=
  andThen (write_index env operator_settings0_addresses op
      (fun _ => settings.operator_settings0) s) fun s =>
  andThen (write_index env operator_settings1_addresses op
      (fun _ => settings.operator_settings1) s) fun s =>
  andThen (write_index env operator_settings2_addresses op
      (fun _ => settings.operator_settings2) s) fun s =>
  andThen (write_index env operator_settings3_addresses op
      (fun _ => settings.operator_settings3) s) fun s =>
  write_index env operator_settings4_addresses op
      (fun _ => settings.operator_settings4) s

/-- set_operator_settings of src/hl.rs: resolve the channel through
OPERATOR_MAP (a Rust array index, panicking out of bounds) and the operator
slot 0 or 1 (any other slot is unreachable code), then write the five
operator registers. -/
def set_operator_settings (env : Env) (channel operator : Nat)
    (settings : OperatorSettings) (s : ShiftInterface) : StepResult :=
  match OPERATOR_MAP[channel]? with
  | none => (s, some Opl2Error.panicked)
  | some pair =>
    match operator with
    | 0 => write_operator_regs env pair.1 settings s
    | 1 => write_operator_regs env pair.2 settings s
    | _ => (s, some Opl2Error.panicked)

/-- setup_melody_instrument of src/hl.rs.  The source guard is
channel > CHANNEL_COUNT; on pass it writes operator 0, the channel synthesis
byte, then operator 1. -/
def setup_melody_instrument (env : Env) (mode : Mode) (channel : Nat)
    (value : MelodyInstrument) (s : ShiftInterface) : StepResult :=
  if CHANNEL_COUNT mode < channel then (s, some Opl2Error.invalidChannel) else
  andThen (set_operator_settings env channel 0 value.operator_0 s) fun s =>
  andThen (write_index env channel_settings2_addresses channel
      (fun _ => value.channel_settings2) s) fun s =>
  set_operator_settings env channel 1 value.operator_1 s

/-- start_channel of src/hl.rs.  The source guard is
channel > CHANNEL_COUNT; on pass it writes the low 8 frequency bits to
channel_settings0, then the high 2 frequency bits, the octave and a set
key-on bit together in one write of channel_settings1. -/
def start_channel (env : Env) (mode : Mode) (channel : Nat) (note : Note)
    (s : ShiftInterface) : StepResult :=
  if CHANNEL_COUNT mode < channel then (s, some Opl2Error.invalidChannel) else
  let frequency := note.get_frequency
  let octave := note.get_octave
  andThen (write_index env channel_settings0_addresses channel
      (fun w => w_frequency_number_low (frequency &&& 0xFF) w) s) fun s =>
  write_index env channel_settings1_addresses channel
      (fun w => w_key_on 1 (w_block_number octave
        (w_frequency_number_high ((frequency &&& 0x300) >>> 8) w))) s

/-- stop_channel of src/hl.rs.  The source guard is channel > CHANNEL_COUNT;
on pass it performs a plain write (not a modify) of channel_settings1 whose
closure only sets the cleared key-on bit, so the built byte is zero. -/
def stop_channel (env : Env) (mode : Mode) (channel : Nat)
    (s : ShiftInterface) : StepResult :=
  if CHANNEL_COUNT mode < channel then (s, some Opl2Error.invalidChannel) else
  write_index env channel_settings1_addresses channel (fun w => w_key_on 0 w) s

/-- into_rhythm_mode of src/hl.rs: modify channels 6, 7, 8 of
channel_settings1 clearing key-on, then modify rhythm_settings setting the
instrument mode bit to Percussion. -/
def into_rhythm_mode (env : Env) (s : ShiftInterface) : StepResult :=
  andThen (modify_index env channel_settings1_addresses 6 (fun b => w_key_on 0 b) s) fun s =>
  andThen (modify_index env channel_settings1_addresses 7 (fun b => w_key_on 0 b) s) fun s =>
  andThen (modify_index env channel_settings1_addresses 8 (fun b => w_key_on 0 b) s) fun s =>
  modify_reg env rhythm_settings_address (fun b => w_instrument_mode 1 b) s

/-- into_melody_mode of src/hl.rs: modify rhythm_settings setting the
instrument mode bit to Melodic; nothing else is written. -/
def into_melody_mode (env : Env) (s : ShiftInterface) : StepResult :=
  modify_reg env rhythm_settings_address (fun b => w_instrument_mode 0 b) s

/-- bass_drum of src/hl.rs: modify only the bass_drum_on bit. -/
def bass_drum (env : Env) (value : Bool) (s : ShiftInterface) : StepResult :=
  modify_reg env rhythm_settings_address (fun b => w_bass_drum_on (cond value 1 0) b) s

/-- snare_drum of src/hl.rs: modify only the snare_drum_on bit. -/
def snare_drum (env : Env) (value : Bool) (s : ShiftInterface) : StepResult :=
  modify_reg env rhythm_settings_address (fun b => w_snare_drum_on (cond value 1 0) b) s

/-- tom_tom of src/hl.rs: modify only the tom_tom_on bit. -/
def tom_tom (env : Env) (value : Bool) (s : ShiftInterface) : StepResult :=
  modify_reg env rhythm_settings_address (fun b => w_tom_tom_on (cond value 1 0) b) s

/-- cymbal of src/hl.rs: modify only the cymbal_on bit. -/
def cymbal (env : Env) (value : Bool) (s : ShiftInterface) : StepResult :=
  modify_reg env rhythm_settings_address (fun b => w_cymbal_on (cond value 1 0) b) s

/-- hi_hat of src/hl.rs: modify only the hi_hat_on bit. -/
def hi_hat (env : Env) (value : Bool) (s : ShiftInterface) : StepResult :=
  modify_reg env rhythm_settings_address (fun b => w_hi_hat_on (cond value 1 0) b) s

/-- The initialize method of src/hl.rs (renamed here because of a keyword
clash): Uninitialized to Melody, performing the transport reset. -/
def initialize_device (env : Env) (s : ShiftInterface) : StepResult :=
  reset env s

/-! ## Transport lemmas -/

theorem andThen_of_none {r : StepResult} {k : ShiftInterface → StepResult}
    (h : r.2 = none) : andThen r k = k r.1 := by
  obtain ⟨s, o⟩ := r
  cases o with
  | none => rfl
  | some e => exact absurd h (by simp)

theorem runPrim_registers (env : Env) (p : Prim) (s : ShiftInterface) :
    (runPrim env p s).1.registers = s.registers := by
  cases p <;> simp only [runPrim, fallible, delayUs, delayMs] <;> first
  | rfl
  | (split <;> rfl)

theorem runPrim_okEnv (p : Prim) (s : ShiftInterface) :
    (runPrim okEnv p s).2 = none := by
  cases p <;> simp [runPrim, fallible, delayUs, delayMs, okEnv]

theorem runPrim_total (env : Env) (p : Prim) (s : ShiftInterface) :
    runPrim env p s = runPrim okEnv p s ∨
      ((runPrim env p s).1.trace = s.trace ∧ ∃ e, (runPrim env p s).2 = some e) := by
  cases p with
  | pin k high =>
    by_cases h : env s.fallibleOps
    · left; simp [runPrim, fallible, okEnv, h]
    · right; simp [runPrim, fallible, h]
  | spi bytes =>
    by_cases h : env s.fallibleOps
    · left; simp [runPrim, fallible, okEnv, h]
    · right; simp [runPrim, fallible, h]
  | dUs n => left; rfl
  | dMs n => left; rfl

theorem runPrim_trace_mono (env : Env) (p : Prim) (s : ShiftInterface) :
    s.trace <:+ (runPrim env p s).1.trace := by
  cases p with
  | pin k high =>
    simp only [runPrim, fallible]
    split
    · exact List.suffix_cons _ _
    · exact List.suffix_refl _
  | spi bytes =>
    simp only [runPrim, fallible]
    split
    · exact List.suffix_cons _ _
    · exact List.suffix_refl _
  | dUs n => exact List.suffix_cons _ _
  | dMs n => exact List.suffix_cons _ _

theorem runPrims_registers (env : Env) (ps : List Prim) (s : ShiftInterface) :
    (runPrims env ps s).1.registers = s.registers := by
  induction ps generalizing s with
  | nil => rfl
  | cons p rest ih =>
    simp only [runPrims]
    cases hr : runPrim env p s with
    | mk s1 o =>
      have hregs : s1.registers = s.registers := by
        have h := runPrim_registers env p s
        rw [hr] at h
        exact h
      cases o with
      | none => simpa [andThen, ih s1] using hregs
      | some e => simpa [andThen] using hregs

theorem runPrims_okEnv_none (ps : List Prim) (s : ShiftInterface) :
    (runPrims okEnv ps s).2 = none := by
  induction ps generalizing s with
  | nil => rfl
  | cons p rest ih =>
    simp only [runPrims]
    cases hr : runPrim okEnv p s with
    | mk s1 o =>
      have h := runPrim_okEnv p s
      rw [hr] at h
      cases h
      simpa [andThen] using ih s1

theorem runPrims_trace_mono (env : Env) (ps : List Prim) (s : ShiftInterface) :
    s.trace <:+ (runPrims env ps s).1.trace := by
  induction ps generalizing s with
  | nil => exact List.suffix_refl _
  | cons p rest ih =>
    simp only [runPrims]
    cases hr : runPrim env p s with
    | mk s1 o =>
      have hmono : s.trace <:+ s1.trace := by
        have h := runPrim_trace_mono env p s
        rw [hr] at h
        exact h
      cases o with
      | none => exact hmono.trans (by simpa [andThen] using ih s1)
      | some e => simpa [andThen] using hmono

theorem runPrims_none_eq (env : Env) (ps : List Prim) (s : ShiftInterface)
    (h : (runPrims env ps s).2 = none) :
    runPrims env ps s = runPrims okEnv ps s := by
  induction ps generalizing s with
  | nil => rfl
  | cons p rest ih =>
    rcases runPrim_total env p s with heq | ⟨htr, e, he⟩
    · simp only [runPrims] at h ⊢
      rw [heq] at h ⊢
      cases hr : runPrim okEnv p s with
      | mk s1 o =>
        have ho := runPrim_okEnv p s
        rw [hr] at ho
        cases ho
        rw [hr] at h
        simp only [andThen] at h ⊢
        exact ih s1 h
    · exfalso
      simp only [runPrims] at h
      cases hr : runPrim env p s with
      | mk s1 o =>
        rw [hr] at he
        cases he
        rw [hr] at h
        simp [andThen] at h

theorem runPrims_abort (env : Env) (ps : List Prim) (s : ShiftInterface) :
    (runPrims env ps s).1.trace <:+ (runPrims okEnv ps s).1.trace := by
  induction ps generalizing s with
  | nil => exact List.suffix_refl _
  | cons p rest ih =>
    simp only [runPrims]
    rcases runPrim_total env p s with heq | ⟨htr, e, he⟩
    · rw [heq]
      cases hr : runPrim okEnv p s with
      | mk s1 o =>
        have ho := runPrim_okEnv p s
        rw [hr] at ho
        cases ho
        simp only [andThen]
        exact ih s1
    · cases hr : runPrim env p s with
      | mk s1 o =>
        rw [hr] at he htr
        cases he
        simp only [andThen]
        cases hk : runPrim okEnv p s with
        | mk s2 o2 =>
          have ho := runPrim_okEnv p s
          rw [hk] at ho
          cases ho
          simp only [andThen]
          have h1 : s.trace <:+ s2.trace := by
            have h := runPrim_trace_mono okEnv p s
            rw [hk] at h
            exact h
          have h2 : s2.trace <:+ (runPrims okEnv rest s2).1.trace :=
            runPrims_trace_mono okEnv rest s2
          rw [show s1.trace = s.trace from htr]
          exact h1.trans h2

theorem writeHwLoop_registers (env : Env) (a : Nat) (bs : List Nat) (i : Nat)
    (s : ShiftInterface) : (writeHwLoop env a bs i s).1.registers = s.registers := by
  induction bs generalizing i s with
  | nil => rfl
  | cons b rest ih =>
    simp only [writeHwLoop]
    cases hr : writeHwByte env ((a + i) % 256) b s with
    | mk s1 o =>
      have hregs : s1.registers = s.registers := by
        have h := runPrims_registers env (hwBytePrims ((a + i) % 256) b) s
        rw [show runPrims env (hwBytePrims ((a + i) % 256) b) s =
          writeHwByte env ((a + i) % 256) b s from rfl, hr] at h
        exact h
      cases o with
      | none => simpa [andThen, ih (i + 1) s1] using hregs
      | some e => simpa [andThen] using hregs

theorem writeHwLoop_okEnv_none (a : Nat) (bs : List Nat) (i : Nat)
    (s : ShiftInterface) : (writeHwLoop okEnv a bs i s).2 = none := by
  induction bs generalizing i s with
  | nil => rfl
  | cons b rest ih =>
    simp only [writeHwLoop]
    cases hr : writeHwByte okEnv ((a + i) % 256) b s with
    | mk s1 o =>
      have h := runPrims_okEnv_none (hwBytePrims ((a + i) % 256) b) s
      rw [show runPrims okEnv (hwBytePrims ((a + i) % 256) b) s =
        writeHwByte okEnv ((a + i) % 256) b s from rfl, hr] at h
      cases h
      simpa [andThen] using ih (i + 1) s1

theorem writeHwLoop_trace_mono (env : Env) (a : Nat) (bs : List Nat) (i : Nat)
    (s : ShiftInterface) : s.trace <:+ (writeHwLoop env a bs i s).1.trace := by
  induction bs generalizing i s with
  | nil => exact List.suffix_refl _
  | cons b rest ih =>
    simp only [writeHwLoop]
    cases hr : writeHwByte env ((a + i) % 256) b s with
    | mk s1 o =>
      have hmono : s.trace <:+ s1.trace := by
        have h := runPrims_trace_mono env (hwBytePrims ((a + i) % 256) b) s
        rw [show runPrims env (hwBytePrims ((a + i) % 256) b) s =
          writeHwByte env ((a + i) % 256) b s from rfl, hr] at h
        exact h
      cases o with
      | none => exact hmono.trans (by simpa [andThen] using ih (i + 1) s1)
      | some e => simpa [andThen] using hmono

theorem writeHwLoop_abort (env : Env) (a : Nat) (bs : List Nat) (i : Nat)
    (s : ShiftInterface) :
    (writeHwLoop env a bs i s).1.trace <:+ (writeHwLoop okEnv a bs i s).1.trace := by
  induction bs generalizing i s with
  | nil => exact List.suffix_refl _
  | cons b rest ih =>
    simp only [writeHwLoop]
    by_cases hb : (writeHwByte env ((a + i) % 256) b s).2 = none
    · have heq : writeHwByte env ((a + i) % 256) b s =
          writeHwByte okEnv ((a + i) % 256) b s :=
        runPrims_none_eq env (hwBytePrims ((a + i) % 256) b) s hb
      rw [heq]
      cases hr : writeHwByte okEnv ((a + i) % 256) b s with
      | mk s1 o =>
        have ho := runPrims_okEnv_none (hwBytePrims ((a + i) % 256) b) s
        rw [show runPrims okEnv (hwBytePrims ((a + i) % 256) b) s =
          writeHwByte okEnv ((a + i) % 256) b s from rfl, hr] at ho
        cases ho
        simp only [andThen]
        exact ih (i + 1) s1
    · cases hr : writeHwByte env ((a + i) % 256) b s with
      | mk s1 o =>
        rw [hr] at hb
        cases o with
        | none => exact absurd rfl hb
        | some e =>
          simp only [andThen]
          cases hk : writeHwByte okEnv ((a + i) % 256) b s with
          | mk s2 o2 =>
            have ho := runPrims_okEnv_none (hwBytePrims ((a + i) % 256) b) s
            rw [show runPrims okEnv (hwBytePrims ((a + i) % 256) b) s =
              writeHwByte okEnv ((a + i) % 256) b s from rfl, hk] at ho
            cases ho
            simp only [andThen]
            have h1 : s1.trace <:+ s2.trace := by
              have h := runPrims_abort env (hwBytePrims ((a + i) % 256) b) s
              rw [show runPrims env (hwBytePrims ((a + i) % 256) b) s =
                writeHwByte env ((a + i) % 256) b s from rfl, hr] at h
              rw [show runPrims okEnv (hwBytePrims ((a + i) % 256) b) s =
                writeHwByte okEnv ((a + i) % 256) b s from rfl, hk] at h
              exact h
            exact h1.trans (writeHwLoop_trace_mono okEnv a rest (i + 1) s2)

theorem write_register_registers (env : Env) (a : Nat) (bs : List Nat)
    (s : ShiftInterface) (h : a + bs.length ≤ s.registers.length) :
    (write_register env a bs s).1.registers =
      s.registers.take a ++ bs ++ s.registers.drop (a + bs.length) := by
  unfold write_register copyFromSlice
  rw [if_pos h]
  exact writeHwLoop_registers env a bs 0 _

theorem write_register_okEnv_none (a : Nat) (bs : List Nat) (s : ShiftInterface)
    (h : a + bs.length ≤ s.registers.length) :
    (write_register okEnv a bs s).2 = none := by
  unfold write_register copyFromSlice
  rw [if_pos h]
  exact writeHwLoop_okEnv_none a bs 0 _

theorem write_register_abort (env : Env) (a : Nat) (bs : List Nat)
    (s : ShiftInterface) :
    (write_register env a bs s).1.trace <:+ (write_register okEnv a bs s).1.trace := by
  unfold write_register
  cases copyFromSlice s.registers a bs with
  | none => exact List.suffix_refl _
  | some regs => exact writeHwLoop_abort env a bs 0 _

theorem write_register_single (a b : Nat) (s : ShiftInterface)
    (h : a < s.registers.length) :
    (write_register okEnv a [b] s).2 = none ∧
      (write_register okEnv a [b] s).1.registers = s.registers.set a b := by
  have hb : a + [b].length ≤ s.registers.length := by simp; omega
  refine ⟨write_register_okEnv_none a [b] s hb, ?_⟩
  rw [write_register_registers okEnv a [b] s hb]
  rw [List.set_eq_take_cons_drop b h]
  simp

theorem read_register_single (a : Nat) (s : ShiftInterface)
    (h : a < s.registers.length) :
    read_register a 1 s = (s, [s.registers.getD a 0], none) := by
  unfold read_register
  rw [if_pos (by omega)]
  have hdrop : s.registers.drop a = s.registers.getD a 0 :: s.registers.drop (a + 1) := by
    rw [List.getD_eq_getElem s.registers 0 h]
    exact List.drop_eq_getElem_cons h
  rw [hdrop]
  simp

theorem modify_reg_single (a : Nat) (f : Nat → Nat) (s : ShiftInterface)
    (h : a < s.registers.length) :
    (modify_reg okEnv a f s).2 = none ∧
      (modify_reg okEnv a f s).1.registers =
        s.registers.set a (f (s.registers.getD a 0) % 256) := by
  unfold modify_reg
  rw [read_register_single a s h]
  exact write_register_single a _ s h

theorem write_index_single (addrs : List Nat) (i a : Nat) (f : Nat → Nat)
    (s : ShiftInterface) (hget : addrs[i]? = some a) (h : a < s.registers.length) :
    (write_index okEnv addrs i f s).2 = none ∧
      (write_index okEnv addrs i f s).1.registers = s.registers.set a (f 0 % 256) := by
  unfold write_index
  rw [hget]
  exact write_register_single a _ s h

theorem modify_index_single (addrs : List Nat) (i a : Nat) (f : Nat → Nat)
    (s : ShiftInterface) (hget : addrs[i]? = some a) (h : a < s.registers.length) :
    (modify_index okEnv addrs i f s).2 = none ∧
      (modify_index okEnv addrs i f s).1.registers =
        s.registers.set a (f (s.registers.getD a 0) % 256) := by
  unfold modify_index
  rw [hget]
  dsimp only
  rw [read_register_single a s h]
  exact write_register_single a _ s h

/-! ## Address lookup and arithmetic helpers -/

theorem cs0_get : ∀ c, c < 9 → channel_settings0_addresses[c]? = some (0xA0 + c) := by
  decide

theorem cs1_get : ∀ c, c < 9 → channel_settings1_addresses[c]? = some (0xB0 + c) := by
  decide

theorem cs2_get : ∀ c, c < 9 → channel_settings2_addresses[c]? = some (0xC0 + c) := by
  decide

theorem os0_get : ∀ o, o < 22 → operator_settings0_addresses[o]? = some (0x20 + o) := by
  decide

theorem os1_get : ∀ o, o < 22 → operator_settings1_addresses[o]? = some (0x40 + o) := by
  decide

theorem os2_get : ∀ o, o < 22 → operator_settings2_addresses[o]? = some (0x60 + o) := by
  decide

theorem os3_get : ∀ o, o < 22 → operator_settings3_addresses[o]? = some (0x80 + o) := by
  decide

theorem os4_get : ∀ o, o < 22 → operator_settings4_addresses[o]? = some (0xE0 + o) := by
  decide

theorem operator_map_bounds :
    ∀ c, c < 9 → (OPERATOR_MAP[c]?.getD (0, 0)).1 < 22 ∧
      (OPERATOR_MAP[c]?.getD (0, 0)).2 < 22 := by
  decide

theorem getD_set_self (l : List Nat) (n b : Nat) (h : n < l.length) :
    (l.set n b).getD n 0 = b := by
  simp [List.getD_eq_getElem?_getD, List.getElem?_set_self h]

theorem getD_set_ne (l : List Nat) (n m b : Nat) (h : n ≠ m) :
    (l.set n b).getD m 0 = l.getD m 0 := by
  simp [List.getD_eq_getElem?_getD, List.getElem?_set_ne h]

theorem note_frequency_facts (n : Note) :
    n.get_frequency &&& 0xFF = n.get_frequency % 256 ∧
      (n.get_frequency &&& 0x300) >>> 8 = n.get_frequency / 256 ∧
      n.get_frequency < 1024 ∧ 256 ≤ n.get_frequency := by
  cases n <;> simp only [Note.get_frequency] <;> decide

theorem take_drop_mid (l bs : List Nat) (a : Nat) (h : a ≤ l.length) :
    ((l.take a ++ bs ++ l.drop (a + bs.length)).drop a).take bs.length = bs := by
  rw [List.append_assoc]
  rw [List.drop_left' (by rw [List.length_take]; omega)]
  exact List.take_left' rfl

theorem copy_length (l bs : List Nat) (a : Nat) (h : a + bs.length ≤ l.length) :
    (l.take a ++ bs ++ l.drop (a + bs.length)).length = l.length := by
  simp [List.length_take, List.length_drop]
  omega

/-- The byte-stream payloads sent over the communication interface, in
chronological order (the trace stores the most recent operation first). -/
def spiPayloads (t : List HwOp) : List (List Nat) :=
  t.reverse.filterMap fun op =>
    match op with
    | HwOp.spiWrite bs => some bs
    | _ => none

/-! ## Claims -/

/-- C3 counterexample: with every hardware operation faulting, a two byte
write at address 0 from a fresh transport fails on the very first byte with
the address line fault, yet the shadow image already holds the second byte
(value 2 at address 1), which the claim as stated forbids (only bytes written
before the fault plus the byte being attempted may be present). -/
theorem c3_counterexample :
    (write_register (fun _ => false) 0 [1, 2] ShiftInterface.new).2 =
      some (Opl2Error.lowLevelError InterfaceError.addressPinError) ∧
    (write_register (fun _ => false) 0 [1, 2] ShiftInterface.new).1.registers.getD 1 0 = 2 ∧
    ShiftInterface.new.registers.getD 1 0 = 0 := by
  decide

/-- C3 amended: when a line fault occurs during a multi byte write, the
remaining hardware activity of that logical write is abandoned - the trace of
hardware operations performed under any environment is a suffix-embedded
prefix (chronologically) of the fault-free trace - and afterwards the shadow
image holds the entire logical write: every byte of the request, including
bytes whose hardware handshake never ran, because the shadow is updated in
full before any hardware activity. -/
theorem c3_fault_aborts_but_shadow_holds_whole_write (env : Env) (a : Nat)
    (bs : List Nat) (s : ShiftInterface) (h : a + bs.length ≤ s.registers.length) :
    (write_register env a bs s).1.registers =
      s.registers.take a ++ bs ++ s.registers.drop (a + bs.length) ∧
    (write_register env a bs s).1.trace <:+ (write_register okEnv a bs s).1.trace :=
  ⟨write_register_registers env a bs s h, write_register_abort env a bs s⟩

/-- C3 witness: the amended theorem applied to the faulting two byte write. -/
theorem c3_witness :
    (0 + ([1, 2] : List Nat).length ≤ ShiftInterface.new.registers.length) ∧
    ((write_register (fun _ => false) 0 [1, 2] ShiftInterface.new).1.registers =
      ShiftInterface.new.registers.take 0 ++ [1, 2] ++
        ShiftInterface.new.registers.drop (0 + ([1, 2] : List Nat).length) ∧
    (write_register (fun _ => false) 0 [1, 2] ShiftInterface.new).1.trace <:+
      (write_register okEnv 0 [1, 2] ShiftInterface.new).1.trace) :=
  ⟨by decide,
    c3_fault_aborts_but_shadow_holds_whole_write (fun _ => false) 0 [1, 2]
      ShiftInterface.new (by decide)⟩

/-- C4 counterexample: the shadow register image of the source has
u8 max value entries, that is 255 bytes addressed 0x00 through 0xFE, not the
256 entries addressed 0x00 through 0xFF the claim states; reading address
0xFF panics (out-of-bounds slice). -/
theorem c4_counterexample :
    ShiftInterface.new.registers.length = 255 ∧
    ¬ ShiftInterface.new.registers.length = 256 ∧
    (read_register 0xFF 1 ShiftInterface.new).2.2 = some Opl2Error.panicked := by
  decide

set_option maxHeartbeats 4000000 in
/-- C4 amended: the shadow image is a fixed-size byte array of 255 entries
addressed 0x00 through 0xFE, all zero at construction; reset re-zeros the
whole image and sends, over the byte stream, the address and data pairs of a
write of 255 zero bytes starting at address 0; immediately after a successful
initialize the whole shadow image is zero.  No hypothesis on the incoming
state is needed: reset replaces the whole image before pushing it out. -/
theorem c4_shadow_image_shape (s : ShiftInterface) :
    ShiftInterface.new.registers = List.replicate 255 0 ∧
    (reset okEnv s).2 = none ∧
    (reset okEnv s).1.registers = List.replicate 255 0 ∧
    (initialize_device okEnv s).2 = none ∧
    (initialize_device okEnv s).1.registers = List.replicate 255 0 ∧
    spiPayloads (reset okEnv ShiftInterface.new).1.trace =
      (List.range 255).flatMap (fun k => [[k], [0]]) := by
  have hmain : (reset okEnv s).2 = none ∧
      (reset okEnv s).1.registers = List.replicate 255 0 := by
    unfold reset
    rw [andThen_of_none (runPrims_okEnv_none resetPrims s)]
    have hb : (0 : Nat) + (List.replicate 255 (0 : Nat)).length ≤
        (List.replicate 255 (0 : Nat)).length := by simp
    constructor
    · exact write_register_okEnv_none 0 (List.replicate 255 0) _ hb
    · rw [write_register_registers okEnv 0 (List.replicate 255 0) _ hb]
      simp
  refine ⟨rfl, hmain.1, hmain.2, hmain.1, hmain.2, ?_⟩
  decide

/-- The byte start_channel writes to the channel frequency-low register. -/
theorem start_low_byte (n : Note) :
    w_frequency_number_low (n.get_frequency &&& 0xFF) 0 % 256 = n.get_frequency % 256 := by
  have h1 := (note_frequency_facts n).1
  simp only [w_frequency_number_low, setField]
  rw [h1]
  norm_num

/-- The byte start_channel writes to the channel frequency-high and control
register: key-on set, the octave in the block field, the two high frequency
bits in the low field. -/
theorem start_high_byte (n : Note) :
    w_key_on 1 (w_block_number n.get_octave
        (w_frequency_number_high ((n.get_frequency &&& 0x300) >>> 8) 0)) % 256 =
      32 + n.get_octave % 8 * 4 + n.get_frequency / 256 := by
  have h2 := (note_frequency_facts n).2.1
  have h3 := (note_frequency_facts n).2.2.1
  have h4 := (note_frequency_facts n).2.2.2
  simp only [w_key_on, w_block_number, w_frequency_number_high, setField]
  rw [h2]
  norm_num
  omega

/-- C1: the claim states that channel indices greater than or equal to the
mode bound (9 Melody, 6 Rhythm) fail with the invalid-channel error and cause
no shadow mutation.  The source guard is channel > CHANNEL_COUNT, so the
boundary channel equal to the bound passes the check: in Rhythm mode,
start_channel on channel 6 (a percussion channel) succeeds and mutates the
shadow image instead of failing; in Melody mode, channel 9 reaches the
register layer, where stop_channel fails with the wrong error (invalid index,
not invalid channel) and setup_melody_instrument panics indexing
OPERATOR_MAP out of bounds. -/
theorem c1_bound_check_off_by_one :
    (start_channel okEnv Mode.rhythm 6 (Note.A 4) ShiftInterface.new).2 = none ∧
    (start_channel okEnv Mode.rhythm 6 (Note.A 4)
        ShiftInterface.new).1.registers.getD 0xA6 0 = 0x41 ∧
    ¬ (start_channel okEnv Mode.rhythm 6 (Note.A 4) ShiftInterface.new).1.registers =
        ShiftInterface.new.registers ∧
    (stop_channel okEnv Mode.melody 9 ShiftInterface.new).2 =
      some Opl2Error.invalidIndex ∧
    (setup_melody_instrument okEnv Mode.melody 9 ELPIANO1 ShiftInterface.new).2 =
      some Opl2Error.panicked := by
  decide

/-- C2 counterexample: in Melody mode from a fresh device, start_channel on
channel 0 with note A octave 4 then stop_channel on channel 0 leaves the
channel frequency-high and control byte entirely zero: the block field is 0
(the claim requires it to still be 4) and the high frequency field is 0 (the
claim requires 0b10). -/
theorem c2_counterexample :
    (stop_channel okEnv Mode.melody 0
        (start_channel okEnv Mode.melody 0 (Note.A 4)
          ShiftInterface.new).1).1.registers.getD 0xB0 0 = 0 ∧
    ¬ getField 2 4 ((stop_channel okEnv Mode.melody 0
        (start_channel okEnv Mode.melody 0 (Note.A 4)
          ShiftInterface.new).1).1.registers.getD 0xB0 0) = 4 ∧
    ¬ getField 0 1 ((stop_channel okEnv Mode.melody 0
        (start_channel okEnv Mode.melody 0 (Note.A 4)
          ShiftInterface.new).1).1.registers.getD 0xB0 0) = 2 := by
  decide

/-- C2 amended: stop_channel performs a plain register write (not a modify)
of the channel frequency-high and control register whose closure only clears
key-on, so the whole byte becomes zero: after start_channel then stop_channel
the frequency-low register still holds the low frequency byte written by
start_channel, but the frequency-high and block fields of the control
register are zeroed along with key-on. -/
theorem c2_stop_channel_zeroes_control_byte (mode : Mode) (c : Nat) (note : Note)
    (s : ShiftInterface) (hc : c ≤ CHANNEL_COUNT mode) (hc9 : c < 9)
    (hlen : s.registers.length = 255) :
    (start_channel okEnv mode c note s).2 = none ∧
    (stop_channel okEnv mode c (start_channel okEnv mode c note s).1).2 = none ∧
    (stop_channel okEnv mode c (start_channel okEnv mode c note s).1).1.registers =
      (s.registers.set (0xA0 + c) (note.get_frequency % 256)).set (0xB0 + c) 0 := by
  have hnot : ¬ (CHANNEL_COUNT mode < c) := by omega
  unfold start_channel stop_channel
  simp only [if_neg hnot]
  have P1 := write_index_single channel_settings0_addresses c (0xA0 + c)
    (fun w => w_frequency_number_low (note.get_frequency &&& 0xFF) w) s
    (cs0_get c hc9) (by rw [hlen]; omega)
  cases hW1 : write_index okEnv channel_settings0_addresses c
      (fun w => w_frequency_number_low (note.get_frequency &&& 0xFF) w) s with
  | mk s1 o1 =>
    rw [hW1] at P1
    obtain ⟨P1a, P1b⟩ := P1
    simp only at P1a P1b
    subst P1a
    simp only [andThen]
    have hlen1 : s1.registers.length = 255 := by rw [P1b]; simp [hlen]
    have P2 := write_index_single channel_settings1_addresses c (0xB0 + c)
      (fun w => w_key_on 1 (w_block_number note.get_octave
        (w_frequency_number_high ((note.get_frequency &&& 0x300) >>> 8) w))) s1
      (cs1_get c hc9) (by rw [hlen1]; omega)
    cases hW2 : write_index okEnv channel_settings1_addresses c
        (fun w => w_key_on 1 (w_block_number note.get_octave
          (w_frequency_number_high ((note.get_frequency &&& 0x300) >>> 8) w))) s1 with
    | mk s2 o2 =>
      rw [hW2] at P2
      obtain ⟨P2a, P2b⟩ := P2
      simp only at P2a P2b
      subst P2a
      have hlen2 : s2.registers.length = 255 := by rw [P2b]; simp [hlen1]
      have P3 := write_index_single channel_settings1_addresses c (0xB0 + c)
        (fun w => w_key_on 0 w) s2 (cs1_get c hc9) (by rw [hlen2]; omega)
      refine ⟨rfl, P3.1, ?_⟩
      rw [P3.2, P2b, P1b, List.set_set]
      rw [show w_key_on 0 0 % 256 = 0 by decide]
      rw [show (fun w => w_frequency_number_low (note.get_frequency &&& 0xFF) w) 0 % 256 =
        note.get_frequency % 256 from start_low_byte note]

/-- C2 witness: the amended theorem at channel 0 in Melody mode. -/
theorem c2_witness :
    ((0 ≤ CHANNEL_COUNT Mode.melody) ∧ (0 < 9) ∧
      ShiftInterface.new.registers.length = 255) ∧
    ((start_channel okEnv Mode.melody 0 (Note.A 4) ShiftInterface.new).2 = none ∧
    (stop_channel okEnv Mode.melody 0
      (start_channel okEnv Mode.melody 0 (Note.A 4) ShiftInterface.new).1).2 = none ∧
    (stop_channel okEnv Mode.melody 0
        (start_channel okEnv Mode.melody 0 (Note.A 4) ShiftInterface.new).1).1.registers =
      (ShiftInterface.new.registers.set (0xA0 + 0)
        ((Note.A 4).get_frequency % 256)).set (0xB0 + 0) 0) :=
  ⟨⟨by decide, by decide, by decide⟩,
    c2_stop_channel_zeroes_control_byte Mode.melody 0 (Note.A 4) ShiftInterface.new
      (by decide) (by decide) (by decide)⟩

/-- Effect of a successful start_channel on the shadow image: the low
frequency byte lands in the channel frequency-low register and the combined
key-on, block and high-frequency byte lands in the channel control register. -/
theorem start_channel_effect (mode : Mode) (c : Nat) (note : Note)
    (s : ShiftInterface) (hc : c ≤ CHANNEL_COUNT mode) (hc9 : c < 9)
    (hlen : s.registers.length = 255) :
    (start_channel okEnv mode c note s).2 = none ∧
    (start_channel okEnv mode c note s).1.registers =
      (s.registers.set (0xA0 + c) (note.get_frequency % 256)).set
        (0xB0 + c) (32 + note.get_octave % 8 * 4 + note.get_frequency / 256) := by
  have hnot : ¬ (CHANNEL_COUNT mode < c) := by omega
  unfold start_channel
  simp only [if_neg hnot]
  have P1 := write_index_single channel_settings0_addresses c (0xA0 + c)
    (fun w => w_frequency_number_low (note.get_frequency &&& 0xFF) w) s
    (cs0_get c hc9) (by rw [hlen]; omega)
  cases hW1 : write_index okEnv channel_settings0_addresses c
      (fun w => w_frequency_number_low (note.get_frequency &&& 0xFF) w) s with
  | mk s1 o1 =>
    rw [hW1] at P1
    obtain ⟨P1a, P1b⟩ := P1
    simp only at P1a P1b
    subst P1a
    simp only [andThen]
    have hlen1 : s1.registers.length = 255 := by rw [P1b]; simp [hlen]
    have P2 := write_index_single channel_settings1_addresses c (0xB0 + c)
      (fun w => w_key_on 1 (w_block_number note.get_octave
        (w_frequency_number_high ((note.get_frequency &&& 0x300) >>> 8) w))) s1
      (cs1_get c hc9) (by rw [hlen1]; omega)
    refine ⟨P2.1, ?_⟩
    rw [P2.2, P1b]
    rw [show (fun w => w_frequency_number_low (note.get_frequency &&& 0xFF) w) 0 % 256 =
      note.get_frequency % 256 from start_low_byte note]
    rw [show (fun w => w_key_on 1 (w_block_number note.get_octave
        (w_frequency_number_high ((note.get_frequency &&& 0x300) >>> 8) w))) 0 % 256 =
      32 + note.get_octave % 8 * 4 + note.get_frequency / 256 from start_high_byte note]

/-- C6: start_channel writes the low 8 bits of the 10-bit frequency number to
the channel frequency-low register and, in one byte write to the channel
frequency-high and control register, the high 2 frequency bits (bits 0..1),
the octave (bits 2..4) and a set key-on bit (bit 5); for note A octave 4 the
frequency-low byte is 0x41, the high frequency field 0b10, the block field 4
and key-on 1. -/
theorem c6_start_channel_frequency_block_keyon (mode : Mode) (c : Nat)
    (note : Note) (s : ShiftInterface) (hc : c ≤ CHANNEL_COUNT mode) (hc9 : c < 9)
    (hlen : s.registers.length = 255) :
    (start_channel okEnv mode c note s).2 = none ∧
    (start_channel okEnv mode c note s).1.registers =
      (s.registers.set (0xA0 + c) (note.get_frequency % 256)).set
        (0xB0 + c) (32 + note.get_octave % 8 * 4 + note.get_frequency / 256) ∧
    getField 5 5 (32 + note.get_octave % 8 * 4 + note.get_frequency / 256) = 1 ∧
    getField 2 4 (32 + note.get_octave % 8 * 4 + note.get_frequency / 256) =
      note.get_octave % 8 ∧
    getField 0 1 (32 + note.get_octave % 8 * 4 + note.get_frequency / 256) =
      note.get_frequency / 256 ∧
    (Note.A 4).get_frequency % 256 = 0x41 ∧
    (Note.A 4).get_frequency / 256 = 2 ∧
    (Note.A 4).get_octave = 4 := by
  obtain ⟨h1, h2⟩ := start_channel_effect mode c note s hc hc9 hlen
  have hq1 := (note_frequency_facts note).2.2.1
  have hq2 := (note_frequency_facts note).2.2.2
  refine ⟨h1, h2, ?_, ?_, ?_, by decide, by decide, by decide⟩ <;>
    · simp only [getField]
      norm_num
      omega

/-- C10: the frequency number of a note is determined by the note letter
alone (each letter gives the same value at every octave), and for two notes
with the same frequency number start_channel writes identical frequency-low
bytes and identical high-frequency control bits, the octave showing up only
in the block field. -/
theorem c10_octave_only_affects_block (o1 o2 : Nat) (mode : Mode) (c : Nat)
    (n1 n2 : Note) (s : ShiftInterface)
    (hfreq : n1.get_frequency = n2.get_frequency)
    (hc : c ≤ CHANNEL_COUNT mode) (hc9 : c < 9)
    (hlen : s.registers.length = 255) :
    ((Note.C o1).get_frequency = (Note.C o2).get_frequency ∧
     (Note.Cs o1).get_frequency = (Note.Cs o2).get_frequency ∧
     (Note.D o1).get_frequency = (Note.D o2).get_frequency ∧
     (Note.Eb o1).get_frequency = (Note.Eb o2).get_frequency ∧
     (Note.E o1).get_frequency = (Note.E o2).get_frequency ∧
     (Note.F o1).get_frequency = (Note.F o2).get_frequency ∧
     (Note.Fs o1).get_frequency = (Note.Fs o2).get_frequency ∧
     (Note.G o1).get_frequency = (Note.G o2).get_frequency ∧
     (Note.Ab o1).get_frequency = (Note.Ab o2).get_frequency ∧
     (Note.A o1).get_frequency = (Note.A o2).get_frequency ∧
     (Note.Bb o1).get_frequency = (Note.Bb o2).get_frequency ∧
     (Note.B o1).get_frequency = (Note.B o2).get_frequency) ∧
    ((start_channel okEnv mode c n1 s).1.registers.getD (0xA0 + c) 0 =
       (start_channel okEnv mode c n2 s).1.registers.getD (0xA0 + c) 0 ∧
     getField 0 1 ((start_channel okEnv mode c n1 s).1.registers.getD (0xB0 + c) 0) =
       getField 0 1 ((start_channel okEnv mode c n2 s).1.registers.getD (0xB0 + c) 0) ∧
     getField 5 5 ((start_channel okEnv mode c n1 s).1.registers.getD (0xB0 + c) 0) = 1 ∧
     getField 5 5 ((start_channel okEnv mode c n2 s).1.registers.getD (0xB0 + c) 0) = 1 ∧
     getField 2 4 ((start_channel okEnv mode c n1 s).1.registers.getD (0xB0 + c) 0) =
       n1.get_octave % 8 ∧
     getField 2 4 ((start_channel okEnv mode c n2 s).1.registers.getD (0xB0 + c) 0) =
       n2.get_octave % 8) := by
  refine ⟨⟨rfl, rfl, rfl, rfl, rfl, rfl, rfl, rfl, rfl, rfl, rfl, rfl⟩, ?_⟩
  obtain ⟨-, hr1⟩ := start_channel_effect mode c n1 s hc hc9 hlen
  obtain ⟨-, hr2⟩ := start_channel_effect mode c n2 s hc hc9 hlen
  rw [hr1, hr2]
  have hlow : s.registers.length = 255 := hlen
  have hset1 : (0xA0 + c) < s.registers.length := by rw [hlen]; omega
  have hset2 : (0xB0 + c) < ((s.registers.set (0xA0 + c)
      (n1.get_frequency % 256)).length) := by simp [hlen]; omega
  have hset2b : (0xB0 + c) < ((s.registers.set (0xA0 + c)
      (n2.get_frequency % 256)).length) := by simp [hlen]; omega
  have hne : (0xB0 + c) ≠ (0xA0 + c) := by omega
  have hq11 := (note_frequency_facts n1).2.2.1
  have hq12 := (note_frequency_facts n1).2.2.2
  have hq21 := (note_frequency_facts n2).2.2.1
  have hq22 := (note_frequency_facts n2).2.2.2
  rw [getD_set_ne _ _ _ _ hne, getD_set_ne _ _ _ _ hne,
    getD_set_self _ _ _ hset1, getD_set_self _ _ _ hset1,
    getD_set_self _ _ _ hset2, getD_set_self _ _ _ hset2b]
  rw [hfreq]
  refine ⟨rfl, ?_, ?_, ?_, ?_, ?_⟩ <;>
    · simp only [getField]
      norm_num
      omega

/-- C6 witness: the theorem at channel 0 in Melody mode with note A octave 4. -/
theorem c6_witness :
    ((0 ≤ CHANNEL_COUNT Mode.melody) ∧ (0 < 9) ∧
      ShiftInterface.new.registers.length = 255) ∧
    ((start_channel okEnv Mode.melody 0 (Note.A 4) ShiftInterface.new).2 = none ∧
     (start_channel okEnv Mode.melody 0 (Note.A 4) ShiftInterface.new).1.registers =
       (ShiftInterface.new.registers.set (0xA0 + 0)
         ((Note.A 4).get_frequency % 256)).set
         (0xB0 + 0) (32 + (Note.A 4).get_octave % 8 * 4 + (Note.A 4).get_frequency / 256) ∧
     getField 5 5 (32 + (Note.A 4).get_octave % 8 * 4 +
       (Note.A 4).get_frequency / 256) = 1 ∧
     getField 2 4 (32 + (Note.A 4).get_octave % 8 * 4 +
       (Note.A 4).get_frequency / 256) = (Note.A 4).get_octave % 8 ∧
     getField 0 1 (32 + (Note.A 4).get_octave % 8 * 4 +
       (Note.A 4).get_frequency / 256) = (Note.A 4).get_frequency / 256 ∧
     (Note.A 4).get_frequency % 256 = 0x41 ∧
     (Note.A 4).get_frequency / 256 = 2 ∧
     (Note.A 4).get_octave = 4) :=
  ⟨⟨by decide, by decide, by decide⟩,
    c6_start_channel_frequency_block_keyon Mode.melody 0 (Note.A 4)
      ShiftInterface.new (by decide) (by decide) (by decide)⟩

/-- C10 witness: the theorem at octaves 1 and 6, channel 0, Melody mode, with
the notes A octave 4 and A octave 7. -/
theorem c10_witness :
    ((Note.A 4).get_frequency = (Note.A 7).get_frequency ∧
      (0 ≤ CHANNEL_COUNT Mode.melody) ∧ (0 < 9) ∧
      ShiftInterface.new.registers.length = 255) ∧
    (((Note.C 1).get_frequency = (Note.C 6).get_frequency ∧
     (Note.Cs 1).get_frequency = (Note.Cs 6).get_frequency ∧
     (Note.D 1).get_frequency = (Note.D 6).get_frequency ∧
     (Note.Eb 1).get_frequency = (Note.Eb 6).get_frequency ∧
     (Note.E 1).get_frequency = (Note.E 6).get_frequency ∧
     (Note.F 1).get_frequency = (Note.F 6).get_frequency ∧
     (Note.Fs 1).get_frequency = (Note.Fs 6).get_frequency ∧
     (Note.G 1).get_frequency = (Note.G 6).get_frequency ∧
     (Note.Ab 1).get_frequency = (Note.Ab 6).get_frequency ∧
     (Note.A 1).get_frequency = (Note.A 6).get_frequency ∧
     (Note.Bb 1).get_frequency = (Note.Bb 6).get_frequency ∧
     (Note.B 1).get_frequency = (Note.B 6).get_frequency) ∧
    ((start_channel okEnv Mode.melody 0 (Note.A 4)
        ShiftInterface.new).1.registers.getD (0xA0 + 0) 0 =
       (start_channel okEnv Mode.melody 0 (Note.A 7)
         ShiftInterface.new).1.registers.getD (0xA0 + 0) 0 ∧
     getField 0 1 ((start_channel okEnv Mode.melody 0 (Note.A 4)
         ShiftInterface.new).1.registers.getD (0xB0 + 0) 0) =
       getField 0 1 ((start_channel okEnv Mode.melody 0 (Note.A 7)
         ShiftInterface.new).1.registers.getD (0xB0 + 0) 0) ∧
     getField 5 5 ((start_channel okEnv Mode.melody 0 (Note.A 4)
       ShiftInterface.new).1.registers.getD (0xB0 + 0) 0) = 1 ∧
     getField 5 5 ((start_channel okEnv Mode.melody 0 (Note.A 7)
       ShiftInterface.new).1.registers.getD (0xB0 + 0) 0) = 1 ∧
     getField 2 4 ((start_channel okEnv Mode.melody 0 (Note.A 4)
       ShiftInterface.new).1.registers.getD (0xB0 + 0) 0) = (Note.A 4).get_octave % 8 ∧
     getField 2 4 ((start_channel okEnv Mode.melody 0 (Note.A 7)
       ShiftInterface.new).1.registers.getD (0xB0 + 0) 0) = (Note.A 7).get_octave % 8)) :=
  ⟨⟨rfl, by decide, by decide, by decide⟩,
    c10_octave_only_affects_block 1 6 Mode.melody 0 (Note.A 4) (Note.A 7)
      ShiftInterface.new rfl (by decide) (by decide) (by decide)⟩

/-- Effect of the five plain operator-register writes on the shadow image. -/
theorem write_operator_regs_effect (op : Nat) (st : OperatorSettings)
    (s : ShiftInterface) (ho : op < 22) (hlen : s.registers.length = 255) :
    (write_operator_regs okEnv op st s).2 = none ∧
    (write_operator_regs okEnv op st s).1.registers =
      (s.registers.set (0x20 + op) (st.operator_settings0 % 256)
        |>.set (0x40 + op) (st.operator_settings1 % 256)
        |>.set (0x60 + op) (st.operator_settings2 % 256)
        |>.set (0x80 + op) (st.operator_settings3 % 256)
        |>.set (0xE0 + op) (st.operator_settings4 % 256)) := by
  unfold write_operator_regs
  have P1 := write_index_single operator_settings0_addresses op (0x20 + op)
    (fun _ => st.operator_settings0) s (os0_get op ho) (by rw [hlen]; omega)
  cases hW1 : write_index okEnv operator_settings0_addresses op
      (fun _ => st.operator_settings0) s with
  | mk s1 o1 =>
    rw [hW1] at P1
    obtain ⟨P1a, P1b⟩ := P1
    simp only at P1a P1b
    subst P1a
    simp only [andThen]
    have hlen1 : s1.registers.length = 255 := by rw [P1b]; simp [hlen]
    have P2 := write_index_single operator_settings1_addresses op (0x40 + op)
      (fun _ => st.operator_settings1) s1 (os1_get op ho) (by rw [hlen1]; omega)
    cases hW2 : write_index okEnv operator_settings1_addresses op
        (fun _ => st.operator_settings1) s1 with
    | mk s2 o2 =>
      rw [hW2] at P2
      obtain ⟨P2a, P2b⟩ := P2
      simp only at P2a P2b
      subst P2a
      simp only [andThen]
      have hlen2 : s2.registers.length = 255 := by rw [P2b]; simp [hlen1]
      have P3 := write_index_single operator_settings2_addresses op (0x60 + op)
        (fun _ => st.operator_settings2) s2 (os2_get op ho) (by rw [hlen2]; omega)
      cases hW3 : write_index okEnv operator_settings2_addresses op
          (fun _ => st.operator_settings2) s2 with
      | mk s3 o3 =>
        rw [hW3] at P3
        obtain ⟨P3a, P3b⟩ := P3
        simp only at P3a P3b
        subst P3a
        simp only [andThen]
        have hlen3 : s3.registers.length = 255 := by rw [P3b]; simp [hlen2]
        have P4 := write_index_single operator_settings3_addresses op (0x80 + op)
          (fun _ => st.operator_settings3) s3 (os3_get op ho) (by rw [hlen3]; omega)
        cases hW4 : write_index okEnv operator_settings3_addresses op
            (fun _ => st.operator_settings3) s3 with
        | mk s4 o4 =>
          rw [hW4] at P4
          obtain ⟨P4a, P4b⟩ := P4
          simp only at P4a P4b
          subst P4a
          simp only [andThen]
          have hlen4 : s4.registers.length = 255 := by rw [P4b]; simp [hlen3]
          have P5 := write_index_single operator_settings4_addresses op (0xE0 + op)
            (fun _ => st.operator_settings4) s4 (os4_get op ho) (by rw [hlen4]; omega)
          refine ⟨P5.1, ?_⟩
          rw [P5.2, P4b, P3b, P2b, P1b]

/-- C7: setup_melody_instrument writes the operator 0 settings bytes to the
five operator registers of the channel first mapped operator index, the
channel synthesis byte to the channel synthesis register, and the operator 1
settings bytes to the five operator registers of the channel second mapped
operator index, where the channel to operator table is exactly
(0,3),(1,4),(2,5),(8,11),(9,12),(10,13),(16,19),(17,20),(18,21). -/
theorem c7_setup_melody_instrument_layout (mode : Mode) (c a b : Nat)
    (v : MelodyInstrument) (s : ShiftInterface) (hc : c ≤ CHANNEL_COUNT mode)
    (hc9 : c < 9) (hmap : OPERATOR_MAP[c]? = some (a, b))
    (hlen : s.registers.length = 255) :
    OPERATOR_MAP = [(0, 3), (1, 4), (2, 5), (8, 11), (9, 12), (10, 13),
      (16, 19), (17, 20), (18, 21)] ∧
    (setup_melody_instrument okEnv mode c v s).2 = none ∧
    (setup_melody_instrument okEnv mode c v s).1.registers =
      (s.registers.set (0x20 + a) (v.operator_0.operator_settings0 % 256)
        |>.set (0x40 + a) (v.operator_0.operator_settings1 % 256)
        |>.set (0x60 + a) (v.operator_0.operator_settings2 % 256)
        |>.set (0x80 + a) (v.operator_0.operator_settings3 % 256)
        |>.set (0xE0 + a) (v.operator_0.operator_settings4 % 256)
        |>.set (0xC0 + c) (v.channel_settings2 % 256)
        |>.set (0x20 + b) (v.operator_1.operator_settings0 % 256)
        |>.set (0x40 + b) (v.operator_1.operator_settings1 % 256)
        |>.set (0x60 + b) (v.operator_1.operator_settings2 % 256)
        |>.set (0x80 + b) (v.operator_1.operator_settings3 % 256)
        |>.set (0xE0 + b) (v.operator_1.operator_settings4 % 256)) := by
  have hnot : ¬ (CHANNEL_COUNT mode < c) := by omega
  have hab := operator_map_bounds c hc9
  rw [hmap] at hab
  simp only [Option.getD_some] at hab
  obtain ⟨ha, hb⟩ := hab
  refine ⟨rfl, ?_⟩
  unfold setup_melody_instrument set_operator_settings
  simp only [if_neg hnot, hmap]
  have W1 := write_operator_regs_effect a v.operator_0 s ha hlen
  cases hR1 : write_operator_regs okEnv a v.operator_0 s with
  | mk s1 o1 =>
    rw [hR1] at W1
    obtain ⟨W1a, W1b⟩ := W1
    simp only at W1a W1b
    subst W1a
    simp only [andThen]
    have hlen1 : s1.registers.length = 255 := by rw [W1b]; simp [hlen]
    have P6 := write_index_single channel_settings2_addresses c (0xC0 + c)
      (fun _ => v.channel_settings2) s1 (cs2_get c hc9) (by rw [hlen1]; omega)
    cases hW6 : write_index okEnv channel_settings2_addresses c
        (fun _ => v.channel_settings2) s1 with
    | mk s2 o2 =>
      rw [hW6] at P6
      obtain ⟨P6a, P6b⟩ := P6
      simp only at P6a P6b
      subst P6a
      simp only [andThen]
      have hlen2 : s2.registers.length = 255 := by rw [P6b]; simp [hlen1]
      have W2 := write_operator_regs_effect b v.operator_1 s2 hb hlen2
      refine ⟨W2.1, ?_⟩
      rw [W2.2, P6b, W1b]

/-- C7 witness: the theorem at channel 0 in Melody mode with the electric
piano preset; the mapped operator pair of channel 0 is (0, 3). -/
theorem c7_witness :
    ((0 ≤ CHANNEL_COUNT Mode.melody) ∧ (0 < 9) ∧
      OPERATOR_MAP[(0 : Nat)]? = some (0, 3) ∧
      ShiftInterface.new.registers.length = 255) ∧
    (OPERATOR_MAP = [(0, 3), (1, 4), (2, 5), (8, 11), (9, 12), (10, 13),
      (16, 19), (17, 20), (18, 21)] ∧
    (setup_melody_instrument okEnv Mode.melody 0 ELPIANO1 ShiftInterface.new).2 = none ∧
    (setup_melody_instrument okEnv Mode.melody 0 ELPIANO1 ShiftInterface.new).1.registers =
      (ShiftInterface.new.registers.set (0x20 + 0)
          (ELPIANO1.operator_0.operator_settings0 % 256)
        |>.set (0x40 + 0) (ELPIANO1.operator_0.operator_settings1 % 256)
        |>.set (0x60 + 0) (ELPIANO1.operator_0.operator_settings2 % 256)
        |>.set (0x80 + 0) (ELPIANO1.operator_0.operator_settings3 % 256)
        |>.set (0xE0 + 0) (ELPIANO1.operator_0.operator_settings4 % 256)
        |>.set (0xC0 + 0) (ELPIANO1.channel_settings2 % 256)
        |>.set (0x20 + 3) (ELPIANO1.operator_1.operator_settings0 % 256)
        |>.set (0x40 + 3) (ELPIANO1.operator_1.operator_settings1 % 256)
        |>.set (0x60 + 3) (ELPIANO1.operator_1.operator_settings2 % 256)
        |>.set (0x80 + 3) (ELPIANO1.operator_1.operator_settings3 % 256)
        |>.set (0xE0 + 3) (ELPIANO1.operator_1.operator_settings4 % 256))) :=
  ⟨⟨by decide, by decide, by decide, by decide⟩,
    c7_setup_melody_instrument_layout Mode.melody 0 0 3 ELPIANO1
      ShiftInterface.new (by decide) (by decide) (by decide) (by decide)⟩

/-- Writing a single-bit field stores exactly that bit. -/
theorem setField_bit_same (k vb b : Nat) (hk : k < 8) :
    getField k k (setField k k vb b % 256) = vb % 2 := by
  simp only [getField, setField]
  interval_cases k <;> norm_num <;> omega

/-- Writing a single-bit field leaves every other bit of the byte unchanged. -/
theorem setField_bit_other (k j vb b : Nat) (hk : k < 8) (hj : j < 8) (hne : j ≠ k) :
    getField j j (setField k k vb b % 256) = getField j j b := by
  simp only [getField, setField]
  interval_cases k <;> interval_cases j <;> norm_num <;> omega

/-- Effect of one rhythm-register single-bit modify on the shadow image. -/
theorem toggle_bit_effect (k vb : Nat) (s : ShiftInterface)
    (hlen : s.registers.length = 255) :
    (modify_reg okEnv 0xBD (fun b => setField k k vb b) s).2 = none ∧
    (modify_reg okEnv 0xBD (fun b => setField k k vb b) s).1.registers =
      s.registers.set 0xBD (setField k k vb (s.registers.getD 0xBD 0) % 256) ∧
    (modify_reg okEnv 0xBD (fun b => setField k k vb b) s).1.registers.getD 0xBD 0 =
      setField k k vb (s.registers.getD 0xBD 0) % 256 := by
  have h : (0xBD : Nat) < s.registers.length := by rw [hlen]; omega
  obtain ⟨h1, h2⟩ := modify_reg_single 0xBD (fun b => setField k k vb b) s h
  refine ⟨h1, h2, ?_⟩
  rw [h2]
  exact getD_set_self _ _ _ h

/-- C8: each rhythm voice toggle modifies exactly its dedicated bit of the
shared rhythm control register (bass 4, snare 3, tom 2, cymbal 1, hi-hat 0),
leaving every other bit of that byte unchanged; and the scenario bass on,
snare on, bass off leaves the snare bit set, the bass bit clear, and the
tom, cymbal and hi-hat bits at their prior values. -/
theorem c8_rhythm_toggles_touch_single_bits (s : ShiftInterface) (v : Bool)
    (hlen : s.registers.length = 255) :
    ((bass_drum okEnv v s).2 = none ∧
     (bass_drum okEnv v s).1.registers =
       s.registers.set 0xBD (w_bass_drum_on (cond v 1 0) (s.registers.getD 0xBD 0) % 256) ∧
     getField 4 4 ((bass_drum okEnv v s).1.registers.getD 0xBD 0) = cond v 1 0 ∧
     (∀ j, j < 8 → j ≠ 4 →
       getField j j ((bass_drum okEnv v s).1.registers.getD 0xBD 0) =
         getField j j (s.registers.getD 0xBD 0))) ∧
    ((snare_drum okEnv v s).2 = none ∧
     getField 3 3 ((snare_drum okEnv v s).1.registers.getD 0xBD 0) = cond v 1 0 ∧
     (∀ j, j < 8 → j ≠ 3 →
       getField j j ((snare_drum okEnv v s).1.registers.getD 0xBD 0) =
         getField j j (s.registers.getD 0xBD 0))) ∧
    ((tom_tom okEnv v s).2 = none ∧
     getField 2 2 ((tom_tom okEnv v s).1.registers.getD 0xBD 0) = cond v 1 0 ∧
     (∀ j, j < 8 → j ≠ 2 →
       getField j j ((tom_tom okEnv v s).1.registers.getD 0xBD 0) =
         getField j j (s.registers.getD 0xBD 0))) ∧
    ((cymbal okEnv v s).2 = none ∧
     getField 1 1 ((cymbal okEnv v s).1.registers.getD 0xBD 0) = cond v 1 0 ∧
     (∀ j, j < 8 → j ≠ 1 →
       getField j j ((cymbal okEnv v s).1.registers.getD 0xBD 0) =
         getField j j (s.registers.getD 0xBD 0))) ∧
    ((hi_hat okEnv v s).2 = none ∧
     getField 0 0 ((hi_hat okEnv v s).1.registers.getD 0xBD 0) = cond v 1 0 ∧
     (∀ j, j < 8 → j ≠ 0 →
       getField j j ((hi_hat okEnv v s).1.registers.getD 0xBD 0) =
         getField j j (s.registers.getD 0xBD 0))) ∧
    (getField 3 3 ((bass_drum okEnv false (snare_drum okEnv true
        (bass_drum okEnv true s).1).1).1.registers.getD 0xBD 0) = 1 ∧
     getField 4 4 ((bass_drum okEnv false (snare_drum okEnv true
        (bass_drum okEnv true s).1).1).1.registers.getD 0xBD 0) = 0 ∧
     (∀ j, j < 3 →
       getField j j ((bass_drum okEnv false (snare_drum okEnv true
          (bass_drum okEnv true s).1).1).1.registers.getD 0xBD 0) =
         getField j j (s.registers.getD 0xBD 0))) := by
  have hcond : ∀ w : Bool, cond w 1 0 % 2 = cond w (1 : Nat) 0 := by
    intro w; cases w <;> rfl
  unfold bass_drum snare_drum tom_tom cymbal hi_hat
  simp only [w_bass_drum_on, w_snare_drum_on, w_tom_tom_on, w_cymbal_on, w_hi_hat_on,
    rhythm_settings_address, Bool.cond_true, Bool.cond_false]
  obtain ⟨b1, b2, b3⟩ := toggle_bit_effect 4 (cond v 1 0) s hlen
  obtain ⟨n1, n2, n3⟩ := toggle_bit_effect 3 (cond v 1 0) s hlen
  obtain ⟨t1, t2, t3⟩ := toggle_bit_effect 2 (cond v 1 0) s hlen
  obtain ⟨y1, y2, y3⟩ := toggle_bit_effect 1 (cond v 1 0) s hlen
  obtain ⟨i1, i2, i3⟩ := toggle_bit_effect 0 (cond v 1 0) s hlen
  refine ⟨⟨b1, b2, ?_, ?_⟩, ⟨n1, ?_, ?_⟩, ⟨t1, ?_, ?_⟩, ⟨y1, ?_, ?_⟩, ⟨i1, ?_, ?_⟩, ?_⟩
  · rw [b3, setField_bit_same 4 _ _ (by omega), hcond]
  · intro j hj hne
    rw [b3, setField_bit_other 4 j _ _ (by omega) hj hne]
  · rw [n3, setField_bit_same 3 _ _ (by omega), hcond]
  · intro j hj hne
    rw [n3, setField_bit_other 3 j _ _ (by omega) hj hne]
  · rw [t3, setField_bit_same 2 _ _ (by omega), hcond]
  · intro j hj hne
    rw [t3, setField_bit_other 2 j _ _ (by omega) hj hne]
  · rw [y3, setField_bit_same 1 _ _ (by omega), hcond]
  · intro j hj hne
    rw [y3, setField_bit_other 1 j _ _ (by omega) hj hne]
  · rw [i3, setField_bit_same 0 _ _ (by omega), hcond]
  · intro j hj hne
    rw [i3, setField_bit_other 0 j _ _ (by omega) hj hne]
  · obtain ⟨s1a, s1b, s1c⟩ := toggle_bit_effect 4 1 s hlen
    have hlen1 : ((modify_reg okEnv 0xBD (fun b => setField 4 4 1 b) s).1).registers.length
        = 255 := by rw [s1b]; simp [hlen]
    obtain ⟨s2a, s2b, s2c⟩ := toggle_bit_effect 3 1
      (modify_reg okEnv 0xBD (fun b => setField 4 4 1 b) s).1 hlen1
    have hlen2 : ((modify_reg okEnv 0xBD (fun b => setField 3 3 1 b)
        (modify_reg okEnv 0xBD (fun b => setField 4 4 1 b) s).1).1).registers.length
        = 255 := by rw [s2b]; simp [hlen1]
    obtain ⟨s3a, s3b, s3c⟩ := toggle_bit_effect 4 0
      (modify_reg okEnv 0xBD (fun b => setField 3 3 1 b)
        (modify_reg okEnv 0xBD (fun b => setField 4 4 1 b) s).1).1 hlen2
    refine ⟨?_, ?_, ?_⟩
    · rw [s3c, setField_bit_other 4 3 _ _ (by omega) (by omega) (by omega),
        s2c, setField_bit_same 3 _ _ (by omega)]
    · rw [s3c, setField_bit_same 4 _ _ (by omega)]
    · intro j hj
      rw [s3c, setField_bit_other 4 j _ _ (by omega) (by omega) (by omega),
        s2c, setField_bit_other 3 j _ _ (by omega) (by omega) (by omega),
        s1c, setField_bit_other 4 j _ _ (by omega) (by omega) (by omega)]

/-- C9: into_rhythm_mode clears the key-on bit of channels 6, 7 and 8
(a modify preserving every other bit of those bytes) and then sets the
rhythm-control instrument mode bit to Percussion (preserving the other bits
of that byte); into_melody_mode modifies only the rhythm-control register,
setting the mode bit back to Melodic, so the Melody to Rhythm to Melody
round trip restores the mode bit but leaves channels 6 to 8 at their
key-on-cleared bytes rather than restoring their previous state. -/
theorem c9_mode_round_trip (s : ShiftInterface) (hlen : s.registers.length = 255) :
    (into_rhythm_mode okEnv s).2 = none ∧
    (into_rhythm_mode okEnv s).1.registers =
      (s.registers.set 0xB6 (w_key_on 0 (s.registers.getD 0xB6 0) % 256)
        |>.set 0xB7 (w_key_on 0 (s.registers.getD 0xB7 0) % 256)
        |>.set 0xB8 (w_key_on 0 (s.registers.getD 0xB8 0) % 256)
        |>.set 0xBD (w_instrument_mode 1 (s.registers.getD 0xBD 0) % 256)) ∧
    getField 5 5 (w_key_on 0 (s.registers.getD 0xB6 0) % 256) = 0 ∧
    getField 5 5 (w_key_on 0 (s.registers.getD 0xB7 0) % 256) = 0 ∧
    getField 5 5 (w_key_on 0 (s.registers.getD 0xB8 0) % 256) = 0 ∧
    (∀ j, j < 8 → j ≠ 5 →
      getField j j (w_key_on 0 (s.registers.getD 0xB6 0) % 256) =
        getField j j (s.registers.getD 0xB6 0) ∧
      getField j j (w_key_on 0 (s.registers.getD 0xB7 0) % 256) =
        getField j j (s.registers.getD 0xB7 0) ∧
      getField j j (w_key_on 0 (s.registers.getD 0xB8 0) % 256) =
        getField j j (s.registers.getD 0xB8 0)) ∧
    getField 5 5 (w_instrument_mode 1 (s.registers.getD 0xBD 0) % 256) = 1 ∧
    (∀ j, j < 8 → j ≠ 5 →
      getField j j (w_instrument_mode 1 (s.registers.getD 0xBD 0) % 256) =
        getField j j (s.registers.getD 0xBD 0)) ∧
    (into_melody_mode okEnv (into_rhythm_mode okEnv s).1).2 = none ∧
    (into_melody_mode okEnv (into_rhythm_mode okEnv s).1).1.registers =
      (s.registers.set 0xB6 (w_key_on 0 (s.registers.getD 0xB6 0) % 256)
        |>.set 0xB7 (w_key_on 0 (s.registers.getD 0xB7 0) % 256)
        |>.set 0xB8 (w_key_on 0 (s.registers.getD 0xB8 0) % 256)
        |>.set 0xBD (w_instrument_mode 0
          (w_instrument_mode 1 (s.registers.getD 0xBD 0) % 256) % 256)) ∧
    getField 5 5 (w_instrument_mode 0
      (w_instrument_mode 1 (s.registers.getD 0xBD 0) % 256) % 256) = 0 ∧
    (into_melody_mode okEnv (into_rhythm_mode okEnv s).1).1.registers.getD 0xB6 0 =
      w_key_on 0 (s.registers.getD 0xB6 0) % 256 ∧
    (into_melody_mode okEnv (into_rhythm_mode okEnv s).1).1.registers.getD 0xB7 0 =
      w_key_on 0 (s.registers.getD 0xB7 0) % 256 ∧
    (into_melody_mode okEnv (into_rhythm_mode okEnv s).1).1.registers.getD 0xB8 0 =
      w_key_on 0 (s.registers.getD 0xB8 0) % 256 := by
  unfold into_rhythm_mode into_melody_mode
  simp only [rhythm_settings_address]
  have P1 := modify_index_single channel_settings1_addresses 6 0xB6
    (fun b => w_key_on 0 b) s (by decide) (by rw [hlen]; omega)
  cases hW1 : modify_index okEnv channel_settings1_addresses 6
      (fun b => w_key_on 0 b) s with
  | mk s1 o1 =>
    rw [hW1] at P1
    obtain ⟨P1a, P1b⟩ := P1
    simp only at P1a P1b
    subst P1a
    simp only [andThen]
    have hlen1 : s1.registers.length = 255 := by rw [P1b]; simp [hlen]
    have hgd7 : s1.registers.getD 0xB7 0 = s.registers.getD 0xB7 0 := by
      rw [P1b]; exact getD_set_ne _ _ _ _ (by omega)
    have P2 := modify_index_single channel_settings1_addresses 7 0xB7
      (fun b => w_key_on 0 b) s1 (by decide) (by rw [hlen1]; omega)
    rw [hgd7] at P2
    cases hW2 : modify_index okEnv channel_settings1_addresses 7
        (fun b => w_key_on 0 b) s1 with
    | mk s2 o2 =>
      rw [hW2] at P2
      obtain ⟨P2a, P2b⟩ := P2
      simp only at P2a P2b
      subst P2a
      simp only [andThen]
      have hlen2 : s2.registers.length = 255 := by rw [P2b]; simp [hlen1]
      have hgd8 : s2.registers.getD 0xB8 0 = s.registers.getD 0xB8 0 := by
        rw [P2b, getD_set_ne _ _ _ _ (by omega), P1b,
          getD_set_ne _ _ _ _ (by omega)]
      have P3 := modify_index_single channel_settings1_addresses 8 0xB8
        (fun b => w_key_on 0 b) s2 (by decide) (by rw [hlen2]; omega)
      rw [hgd8] at P3
      cases hW3 : modify_index okEnv channel_settings1_addresses 8
          (fun b => w_key_on 0 b) s2 with
      | mk s3 o3 =>
        rw [hW3] at P3
        obtain ⟨P3a, P3b⟩ := P3
        simp only at P3a P3b
        subst P3a
        simp only [andThen]
        have hlen3 : s3.registers.length = 255 := by rw [P3b]; simp [hlen2]
        have hgdBD : s3.registers.getD 0xBD 0 = s.registers.getD 0xBD 0 := by
          rw [P3b, getD_set_ne _ _ _ _ (by omega), P2b,
            getD_set_ne _ _ _ _ (by omega), P1b, getD_set_ne _ _ _ _ (by omega)]
        have P4 := modify_reg_single 0xBD (fun b => w_instrument_mode 1 b) s3
          (by rw [hlen3]; omega)
        rw [hgdBD] at P4
        have hRregs : (modify_reg okEnv 0xBD (fun b => w_instrument_mode 1 b)
            s3).1.registers =
            (s.registers.set 0xB6 (w_key_on 0 (s.registers.getD 0xB6 0) % 256)
              |>.set 0xB7 (w_key_on 0 (s.registers.getD 0xB7 0) % 256)
              |>.set 0xB8 (w_key_on 0 (s.registers.getD 0xB8 0) % 256)
              |>.set 0xBD (w_instrument_mode 1 (s.registers.getD 0xBD 0) % 256)) := by
          rw [P4.2, P3b, P2b, P1b]
        have hlenR : (modify_reg okEnv 0xBD (fun b => w_instrument_mode 1 b)
            s3).1.registers.length = 255 := by rw [hRregs]; simp [hlen]
        have hgdBD2 : (modify_reg okEnv 0xBD (fun b => w_instrument_mode 1 b)
            s3).1.registers.getD 0xBD 0 =
            w_instrument_mode 1 (s.registers.getD 0xBD 0) % 256 := by
          rw [hRregs]
          exact getD_set_self _ _ _ (by simp [hlen])
        have P5 := modify_reg_single 0xBD (fun b => w_instrument_mode 0 b)
          (modify_reg okEnv 0xBD (fun b => w_instrument_mode 1 b) s3).1
          (by rw [hlenR]; omega)
        rw [hgdBD2] at P5
        have hMregs : (modify_reg okEnv 0xBD (fun b => w_instrument_mode 0 b)
            (modify_reg okEnv 0xBD (fun b => w_instrument_mode 1 b) s3).1).1.registers =
            (s.registers.set 0xB6 (w_key_on 0 (s.registers.getD 0xB6 0) % 256)
              |>.set 0xB7 (w_key_on 0 (s.registers.getD 0xB7 0) % 256)
              |>.set 0xB8 (w_key_on 0 (s.registers.getD 0xB8 0) % 256)
              |>.set 0xBD (w_instrument_mode 0
                (w_instrument_mode 1 (s.registers.getD 0xBD 0) % 256) % 256)) := by
          rw [P5.2, hRregs, List.set_set]
        refine ⟨P4.1, hRregs, ?_, ?_, ?_, ?_, ?_, ?_, P5.1, hMregs, ?_, ?_, ?_, ?_⟩
        · simp only [w_key_on]
          rw [setField_bit_same 5 _ _ (by omega)]
        · simp only [w_key_on]
          rw [setField_bit_same 5 _ _ (by omega)]
        · simp only [w_key_on]
          rw [setField_bit_same 5 _ _ (by omega)]
        · intro j hj hne
          simp only [w_key_on]
          exact ⟨setField_bit_other 5 j _ _ (by omega) hj hne,
            setField_bit_other 5 j _ _ (by omega) hj hne,
            setField_bit_other 5 j _ _ (by omega) hj hne⟩
        · simp only [w_instrument_mode]
          rw [setField_bit_same 5 _ _ (by omega)]
        · intro j hj hne
          simp only [w_instrument_mode]
          exact setField_bit_other 5 j _ _ (by omega) hj hne
        · simp only [w_instrument_mode]
          rw [setField_bit_same 5 _ _ (by omega)]
        · rw [hMregs, getD_set_ne _ _ _ _ (by omega),
            getD_set_ne _ _ _ _ (by omega), getD_set_ne _ _ _ _ (by omega)]
          exact getD_set_self _ _ _ (by rw [hlen]; omega)
        · rw [hMregs, getD_set_ne _ _ _ _ (by omega),
            getD_set_ne _ _ _ _ (by omega)]
          exact getD_set_self _ _ _ (by simp [hlen])
        · rw [hMregs, getD_set_ne _ _ _ _ (by omega)]
          exact getD_set_self _ _ _ (by simp [hlen])

/-- C9 witness: the mode round trip theorem applied to a fresh device. -/
theorem c9_witness :
    ShiftInterface.new.registers.length = 255 ∧
    ((into_rhythm_mode okEnv ShiftInterface.new).2 = none ∧
    (into_rhythm_mode okEnv ShiftInterface.new).1.registers =
      (ShiftInterface.new.registers.set 0xB6 (w_key_on 0 (ShiftInterface.new.registers.getD 0xB6 0) % 256)
        |>.set 0xB7 (w_key_on 0 (ShiftInterface.new.registers.getD 0xB7 0) % 256)
        |>.set 0xB8 (w_key_on 0 (ShiftInterface.new.registers.getD 0xB8 0) % 256)
        |>.set 0xBD (w_instrument_mode 1 (ShiftInterface.new.registers.getD 0xBD 0) % 256)) ∧
    getField 5 5 (w_key_on 0 (ShiftInterface.new.registers.getD 0xB6 0) % 256) = 0 ∧
    getField 5 5 (w_key_on 0 (ShiftInterface.new.registers.getD 0xB7 0) % 256) = 0 ∧
    getField 5 5 (w_key_on 0 (ShiftInterface.new.registers.getD 0xB8 0) % 256) = 0 ∧
    (∀ j, j < 8 → j ≠ 5 →
      getField j j (w_key_on 0 (ShiftInterface.new.registers.getD 0xB6 0) % 256) =
        getField j j (ShiftInterface.new.registers.getD 0xB6 0) ∧
      getField j j (w_key_on 0 (ShiftInterface.new.registers.getD 0xB7 0) % 256) =
        getField j j (ShiftInterface.new.registers.getD 0xB7 0) ∧
      getField j j (w_key_on 0 (ShiftInterface.new.registers.getD 0xB8 0) % 256) =
        getField j j (ShiftInterface.new.registers.getD 0xB8 0)) ∧
    getField 5 5 (w_instrument_mode 1 (ShiftInterface.new.registers.getD 0xBD 0) % 256) = 1 ∧
    (∀ j, j < 8 → j ≠ 5 →
      getField j j (w_instrument_mode 1 (ShiftInterface.new.registers.getD 0xBD 0) % 256) =
        getField j j (ShiftInterface.new.registers.getD 0xBD 0)) ∧
    (into_melody_mode okEnv (into_rhythm_mode okEnv ShiftInterface.new).1).2 = none ∧
    (into_melody_mode okEnv (into_rhythm_mode okEnv ShiftInterface.new).1).1.registers =
      (ShiftInterface.new.registers.set 0xB6 (w_key_on 0 (ShiftInterface.new.registers.getD 0xB6 0) % 256)
        |>.set 0xB7 (w_key_on 0 (ShiftInterface.new.registers.getD 0xB7 0) % 256)
        |>.set 0xB8 (w_key_on 0 (ShiftInterface.new.registers.getD 0xB8 0) % 256)
        |>.set 0xBD (w_instrument_mode 0
          (w_instrument_mode 1 (ShiftInterface.new.registers.getD 0xBD 0) % 256) % 256)) ∧
    getField 5 5 (w_instrument_mode 0
      (w_instrument_mode 1 (ShiftInterface.new.registers.getD 0xBD 0) % 256) % 256) = 0 ∧
    (into_melody_mode okEnv (into_rhythm_mode okEnv ShiftInterface.new).1).1.registers.getD 0xB6 0 =
      w_key_on 0 (ShiftInterface.new.registers.getD 0xB6 0) % 256 ∧
    (into_melody_mode okEnv (into_rhythm_mode okEnv ShiftInterface.new).1).1.registers.getD 0xB7 0 =
      w_key_on 0 (ShiftInterface.new.registers.getD 0xB7 0) % 256 ∧
    (into_melody_mode okEnv (into_rhythm_mode okEnv ShiftInterface.new).1).1.registers.getD 0xB8 0 =
      w_key_on 0 (ShiftInterface.new.registers.getD 0xB8 0) % 256) :=
  ⟨by decide, c9_mode_round_trip ShiftInterface.new (by decide)⟩

/-- C8 witness: the toggle theorem applied to a fresh device with value true. -/
theorem c8_witness :
    ShiftInterface.new.registers.length = 255 ∧
    (((bass_drum okEnv true ShiftInterface.new).2 = none ∧
     (bass_drum okEnv true ShiftInterface.new).1.registers =
       ShiftInterface.new.registers.set 0xBD (w_bass_drum_on (cond true 1 0) (ShiftInterface.new.registers.getD 0xBD 0) % 256) ∧
     getField 4 4 ((bass_drum okEnv true ShiftInterface.new).1.registers.getD 0xBD 0) = cond true 1 0 ∧
     (∀ j, j < 8 → j ≠ 4 →
       getField j j ((bass_drum okEnv true ShiftInterface.new).1.registers.getD 0xBD 0) =
         getField j j (ShiftInterface.new.registers.getD 0xBD 0))) ∧
    ((snare_drum okEnv true ShiftInterface.new).2 = none ∧
     getField 3 3 ((snare_drum okEnv true ShiftInterface.new).1.registers.getD 0xBD 0) = cond true 1 0 ∧
     (∀ j, j < 8 → j ≠ 3 →
       getField j j ((snare_drum okEnv true ShiftInterface.new).1.registers.getD 0xBD 0) =
         getField j j (ShiftInterface.new.registers.getD 0xBD 0))) ∧
    ((tom_tom okEnv true ShiftInterface.new).2 = none ∧
     getField 2 2 ((tom_tom okEnv true ShiftInterface.new).1.registers.getD 0xBD 0) = cond true 1 0 ∧
     (∀ j, j < 8 → j ≠ 2 →
       getField j j ((tom_tom okEnv true ShiftInterface.new).1.registers.getD 0xBD 0) =
         getField j j (ShiftInterface.new.registers.getD 0xBD 0))) ∧
    ((cymbal okEnv true ShiftInterface.new).2 = none ∧
     getField 1 1 ((cymbal okEnv true ShiftInterface.new).1.registers.getD 0xBD 0) = cond true 1 0 ∧
     (∀ j, j < 8 → j ≠ 1 →
       getField j j ((cymbal okEnv true ShiftInterface.new).1.registers.getD 0xBD 0) =
         getField j j (ShiftInterface.new.registers.getD 0xBD 0))) ∧
    ((hi_hat okEnv true ShiftInterface.new).2 = none ∧
     getField 0 0 ((hi_hat okEnv true ShiftInterface.new).1.registers.getD 0xBD 0) = cond true 1 0 ∧
     (∀ j, j < 8 → j ≠ 0 →
       getField j j ((hi_hat okEnv true ShiftInterface.new).1.registers.getD 0xBD 0) =
         getField j j (ShiftInterface.new.registers.getD 0xBD 0))) ∧
    (getField 3 3 ((bass_drum okEnv false (snare_drum okEnv true
        (bass_drum okEnv true ShiftInterface.new).1).1).1.registers.getD 0xBD 0) = 1 ∧
     getField 4 4 ((bass_drum okEnv false (snare_drum okEnv true
        (bass_drum okEnv true ShiftInterface.new).1).1).1.registers.getD 0xBD 0) = 0 ∧
     (∀ j, j < 3 →
       getField j j ((bass_drum okEnv false (snare_drum okEnv true
          (bass_drum okEnv true ShiftInterface.new).1).1).1.registers.getD 0xBD 0) =
         getField j j (ShiftInterface.new.registers.getD 0xBD 0)))) :=
  ⟨by decide, c8_rhythm_toggles_touch_single_bits ShiftInterface.new true (by decide)⟩

/-- C5: a successful write_register followed immediately by a read_register
of the same address and length returns exactly the written bytes, and
read_register is a pure shadow lookup that leaves the transport state - in
particular its hardware trace - completely unchanged. -/
theorem c5_write_read_round_trip (env : Env) (a : Nat) (bs : List Nat)
    (s s2 : ShiftInterface) (a2 n2 : Nat)
    (h : a + bs.length ≤ s.registers.length)
    (_hok : (write_register env a bs s).2 = none) :
    read_register a bs.length (write_register env a bs s).1 =
      ((write_register env a bs s).1, bs, none) ∧
    (read_register a2 n2 s2).1 = s2 := by
  constructor
  · have hregs := write_register_registers env a bs s h
    unfold read_register
    rw [hregs, copy_length s.registers bs a h, if_pos h,
      take_drop_mid s.registers bs a (by omega)]
  · unfold read_register
    split <;> rfl

/-- C5 witness: the round trip theorem applied to a concrete two byte write. -/
theorem c5_witness :
    (3 + ([7, 8] : List Nat).length ≤ ShiftInterface.new.registers.length) ∧
    ((write_register okEnv 3 [7, 8] ShiftInterface.new).2 = none) ∧
    (read_register 3 ([7, 8] : List Nat).length
        (write_register okEnv 3 [7, 8] ShiftInterface.new).1 =
      ((write_register okEnv 3 [7, 8] ShiftInterface.new).1, [7, 8], none) ∧
    (read_register 0 4 ShiftInterface.new).1 = ShiftInterface.new) :=
  ⟨by decide, by decide,
    c5_write_read_round_trip okEnv 3 [7, 8] ShiftInterface.new ShiftInterface.new 0 4
      (by decide) (by decide)⟩

end Opl
